import Mathlib

/-!
Verification development for the ONECHILLI Goods/Inventory data-access layer.

The Rust sources under src/ are shallowly embedded here:

* `rust_decimal::Decimal` is modelled by `Rat` (all repository operations use
  only exact equality and order comparisons on decimals);
* `DateTime<Utc>` is modelled by `Int` (a timestamp; only equality and order
  are used);
* `i16`/`i32`/`i64` are modelled by `Int` (no arithmetic overflow is possible
  in the modelled code paths: ids are store-assigned sequence values and
  counts are row counts);
* the Postgres store is modelled by `DB`, lists of rows plus the two id
  sequences; SQL statements of the repository are given their semantics row
  by row (filters, `COALESCE` updates, `RETURNING` reads, `ORDER BY` scans);
* fallible store calls return `Except DbErr`; `sqlx::Error` variants that the
  repository produces or matches on are the constructors of `DbErr`.
-/

/-! ## String utilities (src/utils.rs, mod string_utils and validation) -/

/-- ASCII lowercase of a string; models Rust `to_lowercase` on the ASCII
inputs relevant here (non-ASCII characters are left unchanged by both). -/
def rustToLower (s : String) : String :=
  ⟨s.data.map Char.toLower⟩

/-- Whether `n` occurs as a contiguous sublist of `h`; models Rust
`str::contains` with a literal pattern. -/
def listInfix (n : List Char) : List Char → Bool
  | [] => n.isEmpty
  | c :: t => n.isPrefixOf (c :: t) || listInfix n t

/-- Substring test on strings (models Rust `String::contains`). -/
def containsSub (hay needle : String) : Bool :=
  listInfix needle.data hay.data

/-- `string_utils::to_search_pattern`: `"*"` becomes `"%"`, otherwise the
value has the two LIKE metacharacters escaped and is wrapped in wildcards. -/
def toSearchPattern (input : String) : String :=
  if input == "*" then "%"
  else "%" ++ ((input.replace "%" "\\%").replace "_" "\\_") ++ "%"

/-- The fixed dangerous-substring list of `validation::is_safe_string`. -/
def dangerousPatterns : List String :=
  ["select", "insert", "update", "delete", "drop", "alter", "create",
   "union", "script", "--", "/*", "*/", "\x27", "\"", ";", "\\",
   "exec", "execute", "sp_", "xp_"]

/-- Rust `char::is_whitespace` restricted to ASCII (all non-ASCII characters
are accepted by the final `> 127` clause of `is_safe_string` anyway). -/
def rustIsWhitespace (c : Char) : Bool :=
  c == ' ' || c == '\t' || c == '\n' || c == '\r' ||
  c == Char.ofNat 11 || c == Char.ofNat 12

/-- The punctuation whitelist of `is_safe_string`. -/
def allowedPunct (c : Char) : Bool :=
  c == '.' || c == '-' || c == '_' || c == '*' || c == '(' || c == ')' ||
  c == '[' || c == ']' || c == '+' || c == '/' || c == '@' || c == '#' ||
  c == ':' || c == '&' || c == '!' || c == '?' || c == ',' || c == '%'

/-- `validation::is_safe_string` (src/utils.rs lines 19-54). -/
def is_safe_string (input : String) : Bool :=
  if input.isEmpty then false
  else if input == "*" then true
  else if dangerousPatterns.any (fun p => containsSub (rustToLower input) p) then false
  else input.data.all (fun c =>
    c.isAlphanum || rustIsWhitespace c || allowedPunct c || c.toNat > 127)

/-- `validation::validate_safe_string` (src/utils.rs lines 103-111). -/
def validate_safe_string (input fieldName : String) : Except String Unit :=
  if input.isEmpty then .error (fieldName ++ " cannot be empty")
  else if !(is_safe_string input) then .error ("Invalid " ++ fieldName)
  else .ok ()

/-- `validation::is_safe_integer`. -/
def is_safe_integer (input : String) : Bool :=
  !input.isEmpty
    && input.data.all (fun c => c.isDigit || c == '-')
    && input.data.count '-' ≤ 1
    && !(input.startsWith "--")

/-- `validation::is_safe_decimal`. -/
def is_safe_decimal (input : String) : Bool :=
  !input.isEmpty
    && input.data.all (fun c => c.isDigit || c == '.' || c == '-')
    && input.data.count '.' ≤ 1
    && input.data.count '-' ≤ 1
    && !(input.startsWith "--")
    && !(input.endsWith ".")
    && !(input.startsWith ".")

/-- Digit list to natural number. -/
def digitsToNat (ds : List Char) : Nat :=
  ds.foldl (fun n c => n * 10 + (c.toNat - 48)) 0

/-- Rust `str::parse::<i32>` on the strings that pass `is_safe_integer`:
optional leading minus, decimal digits, 32-bit signed range check. -/
def rustParseI32 (s : String) : Option Int :=
  let (neg, ds) :=
    match s.data with
    | '-' :: rest => (true, rest)
    | l => (false, l)
  if ds.isEmpty || !(ds.all Char.isDigit) then none
  else
    let v : Int := (digitsToNat ds : Nat)
    let iv : Int := if neg then -v else v
    if iv < -(2 ^ 31) || iv ≥ 2 ^ 31 then none else some iv

/-- `rust_decimal::Decimal::from_str`, modelled as an exact rational:
optional sign, integer digits, optional fractional digits. -/
def rustParseDecimal (s : String) : Option Rat :=
  let neg := s.startsWith "-"
  let body := if neg then s.drop 1 else s
  let signed : Rat → Rat := fun q => if neg then -q else q
  match body.splitOn "." with
  | [intPart] =>
    if intPart.isEmpty || !(intPart.data.all Char.isDigit) then none
    else some (signed ((digitsToNat intPart.data : Nat) : Rat))
  | [intPart, fracPart] =>
    if intPart.isEmpty || fracPart.isEmpty
        || !(intPart.data.all Char.isDigit) || !(fracPart.data.all Char.isDigit) then none
    else
      let scale : Nat := 10 ^ fracPart.length
      some (signed (((digitsToNat intPart.data * scale + digitsToNat fracPart.data : Nat) : Rat)
        / (scale : Rat)))
  | _ => none

/-- `validation::parse_safe_integer`. -/
def parse_safe_integer (input fieldName : String) : Except String Int :=
  if !(is_safe_integer input) then .error ("Invalid " ++ fieldName ++ " format")
  else
    match rustParseI32 input with
    | some v => .ok v
    | none => .error ("Invalid integer format for " ++ fieldName)

/-- `validation::parse_safe_decimal`. -/
def parse_safe_decimal (input fieldName : String) : Except String Rat :=
  if !(is_safe_decimal input) then .error ("Invalid " ++ fieldName ++ " format")
  else
    match rustParseDecimal input with
    | some v => .ok v
    | none => .error ("Invalid decimal format for " ++ fieldName)

/-! ## Data model (src/tables/goods_table.rs, src/tables/inventory_table.rs) -/

/-- A `goods` row. -/
structure Good where
  goods_id : Int
  material_code : String
  goods_name : String
  description : Option (List String)
  price : Rat
  volumn_l : Rat
  mass_g : Rat
  mass_base : Int
  volumn_base : Int
deriving DecidableEq

/-- An `inventory` row. -/
structure InventoryItem where
  item_id : Int
  goods_id : Int
  quantity : Int
  expired_date : Option Int
deriving DecidableEq

/-- The joined read projection returned by every Inventory operation. -/
structure InventoryItemWithGoods where
  item_id : Int
  goods_id : Int
  material_code : String
  goods_name : String
  description : Option (List String)
  price : Rat
  volumn_l : Rat
  mass_g : Rat
  mass_base : Int
  volumn_base : Int
  quantity : Int
  expired_date : Option Int
deriving DecidableEq

structure CreateGoodRequest where
  material_code : String
  goods_name : String
  description : Option (List String)
  price : Rat
  volumn_l : Rat
  mass_g : Rat
  mass_base : Option Int
  volumn_base : Option Int
deriving DecidableEq

structure UpdateGoodRequest where
  material_code : Option String
  goods_name : Option String
  description : Option (List String)
  price : Option Rat
  volumn_l : Option Rat
  mass_g : Option Rat
  mass_base : Option Int
  volumn_base : Option Int
deriving DecidableEq

structure GoodsSearchParams where
  goods_id : Option Int
  material_code : Option String
  goods_name : Option String
  price : Option Rat
  volumn_l : Option Rat
  mass_g : Option Rat
  min_volumn_l : Option Rat
  max_volumn_l : Option Rat
  min_mass_g : Option Rat
  max_mass_g : Option Rat
  min_price : Option Rat
  max_price : Option Rat
deriving DecidableEq

/-- `GoodsSearchParams::new()`. -/
def GoodsSearchParams.new : GoodsSearchParams :=
  ⟨none, none, none, none, none, none, none, none, none, none, none, none⟩

/-- `GoodsSearchParams::is_get_all`. -/
def goodsIsGetAll (p : GoodsSearchParams) : Bool :=
  p.goods_name == some "*" || p.material_code == some "*"

structure CreateInventoryRequest where
  goods_id : Option Int
  material_code : Option String
  goods_name : Option String
  description : Option (List String)
  price : Option Rat
  volumn_l : Option Rat
  mass_g : Option Rat
  mass_base : Option Int
  volumn_base : Option Int
  quantity : Int
  expired_date : Option Int
deriving DecidableEq

structure UpdateInventoryRequest where
  material_code : Option String
  goods_name : Option String
  description : Option (List String)
  price : Option Rat
  volumn_l : Option Rat
  mass_g : Option Rat
  mass_base : Option Int
  volumn_base : Option Int
  quantity : Option Int
  expired_date : Option Int
deriving DecidableEq

structure InventorySearchParams where
  item_id : Option Int
  quantity : Option Int
  min_quantity : Option Int
  max_quantity : Option Int
  expired_date : Option Int
  min_expired_date : Option Int
  max_expired_date : Option Int
  goods_params : GoodsSearchParams
deriving DecidableEq

/-- `InventorySearchParams::new()`. -/
def InventorySearchParams.new : InventorySearchParams :=
  ⟨none, none, none, none, none, none, none, GoodsSearchParams.new⟩

/-- `InventorySearchParams::is_get_all` delegates to the embedded Goods
filter. -/
def invIsGetAll (p : InventorySearchParams) : Bool :=
  goodsIsGetAll p.goods_params

/-- The store: the two tables plus their id sequences. -/
structure DB where
  goods : List Good
  inventory : List InventoryItem
  next_goods_id : Int
  next_item_id : Int
deriving DecidableEq

/-- The `sqlx::Error` values the repository produces or matches on.
`database` carries the optional SQLSTATE code of a store-level error. -/
inductive DbErr where
  | rowNotFound : DbErr
  | columnNotFound : String → DbErr
  | database : Option String → DbErr
  | other : DbErr
deriving DecidableEq

/-- `response::format_database_error` (src/utils.rs lines 237-253). -/
def formatDatabaseError (e : DbErr) (operation : String) : String :=
  match e with
  | .rowNotFound => "No records found for " ++ operation
  | .database code =>
    match code with
    | some "23503" => "Cannot perform operation due to foreign key constraint"
    | some "23505" => "Record already exists"
    | some "23514" => "Data validation failed"
    | _ => "Database error during " ++ operation
  | _ => "Internal error during " ++ operation

/-! ## Search semantics -/

/-- Insert into a list sorted by `le` (used to model `ORDER BY ... ASC`). -/
def insertSorted (le : α → α → Bool) (x : α) : List α → List α
  | [] => [x]
  | y :: ys => if le x y then x :: y :: ys else y :: insertSorted le x ys

/-- Insertion sort by `le`; models the deterministic ascending key order of
the `ORDER BY` scans. -/
def sortBy (le : α → α → Bool) (l : List α) : List α :=
  l.foldr (insertSorted le) []

/-- Case-insensitive substring semantics of `column ILIKE $n` where the bound
value is `to_search_pattern` of the request value (the two metacharacters are
escaped, so the pattern matches literally). -/
def ilikeContains (stored pat : String) : Bool :=
  containsSub (rustToLower stored) (rustToLower pat)

/-- Row semantics of the WHERE clause compiled by `GoodsTable::search` for a
non-get-all filter: the conjunction of the conditions of the present
fields. -/
def goodMatches (p : GoodsSearchParams) (g : Good) : Bool :=
  (match p.goods_id with | some v => g.goods_id == v | none => true)
  && (match p.material_code with | some mc => ilikeContains g.material_code mc | none => true)
  && (match p.goods_name with | some gn => ilikeContains g.goods_name gn | none => true)
  && (match p.price with | some v => g.price == v | none => true)
  && (match p.volumn_l with | some v => g.volumn_l == v | none => true)
  && (match p.mass_g with | some v => g.mass_g == v | none => true)
  && (match p.min_volumn_l with | some v => decide (v ≤ g.volumn_l) | none => true)
  && (match p.max_volumn_l with | some v => decide (g.volumn_l ≤ v) | none => true)
  && (match p.min_mass_g with | some v => decide (v ≤ g.mass_g) | none => true)
  && (match p.max_mass_g with | some v => decide (g.mass_g ≤ v) | none => true)
  && (match p.min_price with | some v => decide (v ≤ g.price) | none => true)
  && (match p.max_price with | some v => decide (g.price ≤ v) | none => true)

/-- `GoodsTable::get_all`: unconditional scan ordered by `goods_id ASC`. -/
def goodsGetAll (db : DB) : List Good :=
  sortBy (fun a b => a.goods_id ≤ b.goods_id) db.goods

/-- `GoodsTable::search` (src/tables/goods_table.rs lines 92-225): get-all
shortcut, otherwise the compiled predicate scan in `goods_id` order. -/
def goodsSearch (db : DB) (p : GoodsSearchParams) : List Good :=
  if goodsIsGetAll p then goodsGetAll db
  else sortBy (fun a b => a.goods_id ≤ b.goods_id) (db.goods.filter (goodMatches p))

/-- The joined row built from an `inventory` row and its `goods` row. -/
def joinRow (it : InventoryItem) (g : Good) : InventoryItemWithGoods :=
  ⟨it.item_id, it.goods_id, g.material_code, g.goods_name, g.description,
   g.price, g.volumn_l, g.mass_g, g.mass_base, g.volumn_base,
   it.quantity, it.expired_date⟩

/-- `INNER JOIN goods g ON i.goods_id = g.goods_id`: each inventory row joined
with its goods row (by the `goods_id` primary key). -/
def joinAll (db : DB) : List InventoryItemWithGoods :=
  db.inventory.filterMap (fun it =>
    (db.goods.find? (fun g => g.goods_id == it.goods_id)).map (joinRow it))

/-- Row semantics of the WHERE clause compiled by `InventoryTable::search`
for a non-get-all filter. -/
def invMatches (p : InventorySearchParams) (r : InventoryItemWithGoods) : Bool :=
  (match p.item_id with | some v => r.item_id == v | none => true)
  && (match p.quantity with | some v => r.quantity == v | none => true)
  && (match p.min_quantity with | some v => decide (v ≤ r.quantity) | none => true)
  && (match p.max_quantity with | some v => decide (r.quantity ≤ v) | none => true)
  && (match p.expired_date with | some v => r.expired_date == some v | none => true)
  && (match p.min_expired_date with
      | some v => match r.expired_date with | some d => decide (v ≤ d) | none => false
      | none => true)
  && (match p.max_expired_date with
      | some v => match r.expired_date with | some d => decide (d ≤ v) | none => false
      | none => true)
  && goodMatches p.goods_params
       ⟨r.goods_id, r.material_code, r.goods_name, r.description, r.price,
        r.volumn_l, r.mass_g, r.mass_base, r.volumn_base⟩

/-- `InventoryTable::get_all`: unconditional joined scan, `item_id ASC`. -/
def invGetAll (db : DB) : List InventoryItemWithGoods :=
  sortBy (fun a b => a.item_id ≤ b.item_id) (joinAll db)

/-- `InventoryTable::search` (src/tables/inventory_table.rs lines 112-338). -/
def inventorySearch (db : DB) (p : InventorySearchParams) : List InventoryItemWithGoods :=
  if invIsGetAll p then invGetAll db
  else sortBy (fun a b => a.item_id ≤ b.item_id) ((joinAll db).filter (invMatches p))

/-! ## Goods mutations (src/tables/goods_table.rs) -/

/-- `GoodsTable::get_by_material_code`: `fetch_optional` of an exact-equality
lookup (the first matching row). -/
def getByMaterialCode (db : DB) (mc : String) : Option Good :=
  db.goods.find? (fun g => g.material_code == mc)

/-- `GoodsTable::get_by_id`. -/
def getGoodById (db : DB) (gid : Int) : Option Good :=
  db.goods.find? (fun g => g.goods_id == gid)

/-- The new row built by the `INSERT INTO goods ... RETURNING` statement of
`GoodsTable::insert` (`mass_base`/`volumn_base` default to 0). -/
def mkGood (db : DB) (r : CreateGoodRequest) : Good :=
  ⟨db.next_goods_id, r.material_code, r.goods_name, r.description,
   r.price, r.volumn_l, r.mass_g, r.mass_base.getD 0, r.volumn_base.getD 0⟩

/-- `GoodsTable::insert` (src/tables/goods_table.rs lines 253-282): look up by
`material_code`; if found return the existing row, otherwise insert. -/
def goodsInsert (db : DB) (r : CreateGoodRequest) : DB × Except DbErr Good :=
  match getByMaterialCode db r.material_code with
  | some existing => (db, .ok existing)
  | none =>
    let g := mkGood db r
    ({ db with goods := db.goods ++ [g], next_goods_id := db.next_goods_id + 1 }, .ok g)

/-- SQL `COALESCE` over an optional stored column: a bound NULL (absent patch
field) keeps the stored value. -/
def coalesceO (patch stored : Option α) : Option α :=
  match patch with
  | some v => some v
  | none => stored

/-- The row transformation of the `UPDATE goods SET ... = COALESCE($i, ...)`
statement used by `GoodsTable::update`. -/
def applyGoodPatch (u : UpdateGoodRequest) (g : Good) : Good :=
  ⟨g.goods_id,
   u.material_code.getD g.material_code,
   u.goods_name.getD g.goods_name,
   coalesceO u.description g.description,
   u.price.getD g.price,
   u.volumn_l.getD g.volumn_l,
   u.mass_g.getD g.mass_g,
   u.mass_base.getD g.mass_base,
   u.volumn_base.getD g.volumn_base⟩

/-- `UPDATE goods ... WHERE goods_id = $1` with `applyGoodPatch` row
semantics. -/
def updateGoodRowById (db : DB) (gid : Int) (u : UpdateGoodRequest) : DB :=
  { db with goods := db.goods.map (fun g => if g.goods_id == gid then applyGoodPatch u g else g) }

/-- The per-row loop of `GoodsTable::update`: patch each matched row and read
it back via `RETURNING` (`fetch_one` fails with `RowNotFound` if the row is
gone); an error aborts the loop, keeping earlier writes. -/
def goodsUpdLoop (u : UpdateGoodRequest) : DB → List Good → DB × Except DbErr (List Good)
  | db, [] => (db, .ok [])
  | db, g :: rest =>
    let db1 := updateGoodRowById db g.goods_id u
    match db1.goods.find? (fun x => x.goods_id == g.goods_id) with
    | none => (db1, .error .rowNotFound)
    | some g1 =>
      match goodsUpdLoop u db1 rest with
      | (dbf, .ok rs) => (dbf, .ok (g1 :: rs))
      | (dbf, .error e) => (dbf, .error e)

/-- `GoodsTable::update` (src/tables/goods_table.rs lines 284-333).  The
trailing `get_by_id` verification read of the source is a no-op on the
store and on the result and is omitted. -/
def goodsUpdate (db : DB) (p : GoodsSearchParams) (u : UpdateGoodRequest) :
    DB × Except DbErr (List Good) :=
  let toUpd := goodsSearch db p
  if toUpd.isEmpty then (db, .ok [])
  else goodsUpdLoop u db toUpd

/-- `database::count_by_foreign_key` on the `inventory` table:
`SELECT COUNT(*) FROM inventory WHERE goods_id = $1`. -/
def invCount (inv : List InventoryItem) (gid : Int) : Nat :=
  (inv.filter (fun it => it.goods_id == gid)).length

/-- `DELETE FROM goods WHERE goods_id = $1`. -/
def removeGood (db : DB) (gid : Int) : DB :=
  { db with goods := db.goods.filter (fun g => !(g.goods_id == gid)) }

/-- Sequential removal of several goods rows by id. -/
def removeGoods (db : DB) (ids : List Int) : DB :=
  ids.foldl removeGood db

/-- The per-row loop of `GoodsTable::delete` (src/tables/goods_table.rs lines
343-369): count the inventory references of each matched row; a referenced
row aborts the whole call with `RowNotFound`, keeping earlier deletions. -/
def goodsDeleteLoop : DB → List Int → List Good → DB × Except DbErr (List Int)
  | db, acc, [] => (db, .ok acc)
  | db, acc, g :: rest =>
    if 0 < invCount db.inventory g.goods_id then (db, .error .rowNotFound)
    else goodsDeleteLoop (removeGood db g.goods_id) (acc ++ [g.goods_id]) rest

/-- `GoodsTable::delete` (src/tables/goods_table.rs lines 335-370). -/
def goodsDelete (db : DB) (p : GoodsSearchParams) : DB × Except DbErr (List Int) :=
  let toDel := goodsSearch db p
  if toDel.isEmpty then (db, .ok [])
  else goodsDeleteLoop db [] toDel

/-! ## Inventory mutations (src/tables/inventory_table.rs) -/

/-- `database::exists_by_id` on the `goods` table. -/
def existsGoodById (db : DB) (gid : Int) : Bool :=
  db.goods.any (fun g => g.goods_id == gid)

/-- `database::get_id_by_string` on `goods.material_code` (first row). -/
def getIdByMaterialCode (db : DB) (mc : String) : Option Int :=
  (db.goods.find? (fun g => g.material_code == mc)).map (·.goods_id)

/-- The goods row built by the implicit-creation `INSERT` of
`InventoryTable::insert` strategy (c); the `unwrap`s of the source are
guarded by the branch condition and rendered as `getD` defaults. -/
def mkGoodFromInv (db : DB) (mc : String) (req : CreateInventoryRequest) : Good :=
  ⟨db.next_goods_id, mc, req.goods_name.getD "", req.description,
   req.price.getD 0, req.volumn_l.getD 0, req.mass_g.getD 0,
   req.mass_base.getD 0, req.volumn_base.getD 0⟩

/-- The goods-reference resolution of `InventoryTable::insert`
(src/tables/inventory_table.rs lines 373-427): (a) explicit `goods_id` with
an existence check; (b) `material_code` lookup; (c) the implicit-creation
branch, whose body first demands `request.material_code` via `ok_or_else`;
otherwise a `ColumnNotFound` error. -/
def resolveGoodsId (db : DB) (req : CreateInventoryRequest) : DB × Except DbErr Int :=
  match req.goods_id with
  | some id =>
    if existsGoodById db id then (db, .ok id) else (db, .error .rowNotFound)
  | none =>
    match req.material_code with
    | some mc =>
      match getIdByMaterialCode db mc with
      | some id => (db, .ok id)
      | none => (db, .error .rowNotFound)
    | none =>
      if req.goods_name.isSome && req.price.isSome
          && req.volumn_l.isSome && req.mass_g.isSome then
        -- the source clones `request.material_code` here and fails with
        -- `ColumnNotFound` when it is absent, which in this branch it
        -- always is
        match req.material_code with
        | some mc =>
          let g := mkGoodFromInv db mc req
          ({ db with goods := db.goods ++ [g], next_goods_id := db.next_goods_id + 1 },
           .ok g.goods_id)
        | none => (db, .error (.columnNotFound "material_code is required for new goods"))
      else
        (db, .error (.columnNotFound
          "Either goods_id, material_code, or complete goods information is required"))

/-- The duplicate check of `InventoryTable::insert`: the two `SELECT`
statements keyed on `(goods_id, expired_date)`, with `IS NULL` for an absent
expiry. -/
def findDup (inv : List InventoryItem) (gid : Int) : Option Int → Option InventoryItem
  | some d => inv.find? (fun it => it.goods_id == gid && it.expired_date == some d)
  | none => inv.find? (fun it => it.goods_id == gid && it.expired_date == none)

/-- `InventoryTable::get_by_item_id` (`fetch_one` of the join; a missing row
or missing goods row surfaces as `RowNotFound`). -/
def getByItemId (db : DB) (iid : Int) : Except DbErr InventoryItemWithGoods :=
  match db.inventory.find? (fun it => it.item_id == iid) with
  | none => .error .rowNotFound
  | some it =>
    match db.goods.find? (fun g => g.goods_id == it.goods_id) with
    | none => .error .rowNotFound
    | some g => .ok (joinRow it g)

/-- The `INSERT INTO inventory ... RETURNING` statement of
`InventoryTable::insert`. -/
def pushInv (db : DB) (gid : Int) (req : CreateInventoryRequest) : DB :=
  { db with
    inventory := db.inventory ++ [⟨db.next_item_id, gid, req.quantity, req.expired_date⟩],
    next_item_id := db.next_item_id + 1 }

/-- `InventoryTable::insert` (src/tables/inventory_table.rs lines 373-476):
resolve the goods reference, dedup on `(goods_id, expired_date)`, then insert
or return the existing row.  (The already-expired check of the source only
emits a log line and does not affect the result.) -/
def inventoryInsert (db : DB) (req : CreateInventoryRequest) :
    DB × Except DbErr (InventoryItemWithGoods × Bool) :=
  match resolveGoodsId db req with
  | (db1, .error e) => (db1, .error e)
  | (db1, .ok gid) =>
    match findDup db1.inventory gid req.expired_date with
    | some existing =>
      (db1, (getByItemId db1 existing.item_id).map (fun j => (j, false)))
    | none =>
      let db2 := pushInv db1 gid req
      (db2, (getByItemId db2 db1.next_item_id).map (fun j => (j, true)))

/-- Whether any Goods-shaped field of an inventory patch is present (the
guard of the goods `UPDATE` inside `InventoryTable::update`). -/
def goodsPatchPresent (u : UpdateInventoryRequest) : Bool :=
  u.material_code.isSome || u.goods_name.isSome || u.description.isSome
    || u.price.isSome || u.volumn_l.isSome || u.mass_g.isSome
    || u.mass_base.isSome || u.volumn_base.isSome

/-- The goods-row transformation of the `UPDATE goods` statement inside
`InventoryTable::update` (same `COALESCE` shape as `applyGoodPatch`). -/
def applyGoodPatchI (u : UpdateInventoryRequest) (g : Good) : Good :=
  ⟨g.goods_id,
   u.material_code.getD g.material_code,
   u.goods_name.getD g.goods_name,
   coalesceO u.description g.description,
   u.price.getD g.price,
   u.volumn_l.getD g.volumn_l,
   u.mass_g.getD g.mass_g,
   u.mass_base.getD g.mass_base,
   u.volumn_base.getD g.volumn_base⟩

/-- `UPDATE goods ... WHERE goods_id = $1` inside `InventoryTable::update`. -/
def updateGoodRowByIdI (db : DB) (gid : Int) (u : UpdateInventoryRequest) : DB :=
  { db with goods := db.goods.map (fun g => if g.goods_id == gid then applyGoodPatchI u g else g) }

/-- The inventory-row transformation of the `UPDATE inventory SET quantity =
COALESCE($2, quantity), expired_date = COALESCE($3, expired_date)`
statement. -/
def applyInvPatch (u : UpdateInventoryRequest) (it : InventoryItem) : InventoryItem :=
  ⟨it.item_id, it.goods_id, u.quantity.getD it.quantity, coalesceO u.expired_date it.expired_date⟩

/-- `UPDATE inventory ... WHERE item_id = $1`. -/
def updateInvRow (db : DB) (iid : Int) (u : UpdateInventoryRequest) : DB :=
  { db with inventory := db.inventory.map (fun it => if it.item_id == iid then applyInvPatch u it else it) }

/-- The two conditional writes of one item transaction inside
`InventoryTable::update`: the goods `UPDATE` if any goods field is present,
then the inventory `UPDATE` if `quantity` or `expired_date` is present. -/
def invUpdStep (u : UpdateInventoryRequest) (db : DB) (item : InventoryItemWithGoods) : DB :=
  let db1 := if goodsPatchPresent u then updateGoodRowByIdI db item.goods_id u else db
  if u.quantity.isSome || u.expired_date.isSome
  then updateInvRow db1 item.item_id u else db1

/-- The per-item loop of `InventoryTable::update`: one transaction per item
(the two writes of `invUpdStep`, committed together — the model is
sequential, so the transaction is the two writes in order), then the
read-back; an error aborts the loop keeping earlier commits. -/
def invUpdLoop (u : UpdateInventoryRequest) :
    DB → List InventoryItemWithGoods → DB × Except DbErr (List InventoryItemWithGoods)
  | db, [] => (db, .ok [])
  | db, item :: rest =>
    let db2 := invUpdStep u db item
    match getByItemId db2 item.item_id with
    | .error e => (db2, .error e)
    | .ok r =>
      match invUpdLoop u db2 rest with
      | (dbf, .ok rs) => (dbf, .ok (r :: rs))
      | (dbf, .error e) => (dbf, .error e)

/-- `InventoryTable::update` (src/tables/inventory_table.rs lines 509-587). -/
def inventoryUpdate (db : DB) (p : InventorySearchParams) (u : UpdateInventoryRequest) :
    DB × Except DbErr (List InventoryItemWithGoods) :=
  let toUpd := inventorySearch db p
  if toUpd.isEmpty then (db, .ok [])
  else invUpdLoop u db toUpd

/-! ## Request validation (src/request.rs) -/

/-- The indexed loop validating every description entry. -/
def validateDescList : List String → Nat → Except String Unit
  | [], _ => .ok ()
  | s :: rest, i => do
    validate_safe_string s ("description[" ++ toString i ++ "]")
    validateDescList rest (i + 1)

/-- `CreateGoodRequest::validate` (src/request.rs lines 204-225). -/
def validateCreateGood (r : CreateGoodRequest) : Except String Unit := do
  validate_safe_string r.material_code "material_code"
  validate_safe_string r.goods_name "goods_name"
  (match r.description with
   | some desc => validateDescList desc 0
   | none => pure ())
  if r.price < 0 then throw "Price cannot be negative"
  if r.volumn_l ≤ 0 then throw "Volume must be positive"
  if r.mass_g ≤ 0 then throw "Mass must be positive"
  pure ()

/-- `UpdateGoodRequest::validate` (src/request.rs lines 229-272). -/
def validateUpdateGood (r : UpdateGoodRequest) : Except String Unit := do
  if r.material_code.isNone && r.goods_name.isNone && r.description.isNone
      && r.price.isNone && r.volumn_l.isNone && r.mass_g.isNone
      && r.mass_base.isNone && r.volumn_base.isNone then
    throw "At least one field must be provided for update"
  (match r.material_code with
   | some mc => validate_safe_string mc "material_code"
   | none => pure ())
  (match r.goods_name with
   | some gn => validate_safe_string gn "goods_name"
   | none => pure ())
  (match r.description with
   | some desc => validateDescList desc 0
   | none => pure ())
  (match r.price with
   | some v => if v < 0 then throw "Price cannot be negative" else pure ()
   | none => pure ())
  (match r.volumn_l with
   | some v => if v ≤ 0 then throw "Volume must be positive" else pure ()
   | none => pure ())
  (match r.mass_g with
   | some v => if v ≤ 0 then throw "Mass must be positive" else pure ()
   | none => pure ())
  pure ()

/-- `CreateInventoryRequest::validate` (src/request.rs lines 276-324). -/
def validateCreateInventory (r : CreateInventoryRequest) : Except String Unit := do
  if r.goods_id.isNone && r.material_code.isNone then
    if r.goods_name.isNone || r.price.isNone || r.volumn_l.isNone || r.mass_g.isNone then
      throw "Either goods_id, material_code, or complete goods information (goods_name, price, volumn_l, mass_g) is required"
  if r.quantity < 0 then throw "Quantity cannot be negative"
  (match r.material_code with
   | some mc => validate_safe_string mc "material_code"
   | none => pure ())
  (match r.goods_name with
   | some gn => validate_safe_string gn "goods_name"
   | none => pure ())
  (match r.description with
   | some desc => validateDescList desc 0
   | none => pure ())
  (match r.price with
   | some v => if v < 0 then throw "Price cannot be negative" else pure ()
   | none => pure ())
  (match r.volumn_l with
   | some v => if v ≤ 0 then throw "Volume must be positive" else pure ()
   | none => pure ())
  (match r.mass_g with
   | some v => if v ≤ 0 then throw "Mass must be positive" else pure ()
   | none => pure ())
  pure ()

/-- `UpdateInventoryRequest::validate` (src/request.rs lines 328-383). -/
def validateUpdateInventory (r : UpdateInventoryRequest) : Except String Unit := do
  if r.material_code.isNone && r.goods_name.isNone && r.description.isNone
      && r.price.isNone && r.volumn_l.isNone && r.mass_g.isNone
      && r.mass_base.isNone && r.volumn_base.isNone
      && r.quantity.isNone && r.expired_date.isNone then
    throw "At least one field must be provided for update"
  (match r.material_code with
   | some mc => validate_safe_string mc "material_code"
   | none => pure ())
  (match r.goods_name with
   | some gn => validate_safe_string gn "goods_name"
   | none => pure ())
  (match r.description with
   | some desc => validateDescList desc 0
   | none => pure ())
  (match r.price with
   | some v => if v < 0 then throw "Price cannot be negative" else pure ()
   | none => pure ())
  (match r.volumn_l with
   | some v => if v ≤ 0 then throw "Volume must be positive" else pure ()
   | none => pure ())
  (match r.mass_g with
   | some v => if v ≤ 0 then throw "Mass must be positive" else pure ()
   | none => pure ())
  (match r.quantity with
   | some q => if q < 0 then throw "Quantity cannot be negative" else pure ()
   | none => pure ())
  pure ()

/-- The string-typed query parameters of the Goods routes. -/
structure GoodsQueryParams where
  goods_id : Option String
  material_code : Option String
  goods_name : Option String
  price : Option String
  volumn_l : Option String
  mass_g : Option String
  min_volumn_l : Option String
  max_volumn_l : Option String
  min_mass_g : Option String
  max_mass_g : Option String
  min_price : Option String
  max_price : Option String
deriving DecidableEq

/-! One step per field of `GoodsQueryParams::validate_and_parse`
(src/request.rs lines 54-108): each present field is validated/parsed and
written into the accumulating `GoodsSearchParams`; an absent field is
skipped.  The steps are sequenced in declaration order below. -/

/-- The `goods_id` block of `validate_and_parse`. -/
def gvpGoodsId (q : GoodsQueryParams) (sp : GoodsSearchParams) :
    Except String GoodsSearchParams :=
  match q.goods_id with
  | some s => (parse_safe_integer s "goods_id").map (fun v => { sp with goods_id := some v })
  | none => .ok sp

/-- The `material_code` block of `validate_and_parse`. -/
def gvpMaterialCode (q : GoodsQueryParams) (sp : GoodsSearchParams) :
    Except String GoodsSearchParams :=
  match q.material_code with
  | some s =>
    (validate_safe_string s "material_code").map (fun _ => { sp with material_code := some s })
  | none => .ok sp

/-- The `goods_name` block of `validate_and_parse`. -/
def gvpGoodsName (q : GoodsQueryParams) (sp : GoodsSearchParams) :
    Except String GoodsSearchParams :=
  match q.goods_name with
  | some s =>
    (validate_safe_string s "goods_name").map (fun _ => { sp with goods_name := some s })
  | none => .ok sp

/-- The `price` block of `validate_and_parse`. -/
def gvpPrice (q : GoodsQueryParams) (sp : GoodsSearchParams) :
    Except String GoodsSearchParams :=
  match q.price with
  | some s => (parse_safe_decimal s "price").map (fun v => { sp with price := some v })
  | none => .ok sp

/-- The `volumn_l` block of `validate_and_parse`. -/
def gvpVolumnL (q : GoodsQueryParams) (sp : GoodsSearchParams) :
    Except String GoodsSearchParams :=
  match q.volumn_l with
  | some s => (parse_safe_decimal s "volumn_l").map (fun v => { sp with volumn_l := some v })
  | none => .ok sp

/-- The `mass_g` block of `validate_and_parse`. -/
def gvpMassG (q : GoodsQueryParams) (sp : GoodsSearchParams) :
    Except String GoodsSearchParams :=
  match q.mass_g with
  | some s => (parse_safe_decimal s "mass_g").map (fun v => { sp with mass_g := some v })
  | none => .ok sp

/-- The `min_volumn_l` block of `validate_and_parse`. -/
def gvpMinVolumnL (q : GoodsQueryParams) (sp : GoodsSearchParams) :
    Except String GoodsSearchParams :=
  match q.min_volumn_l with
  | some s =>
    (parse_safe_decimal s "min_volumn_l").map (fun v => { sp with min_volumn_l := some v })
  | none => .ok sp

/-- The `max_volumn_l` block of `validate_and_parse`. -/
def gvpMaxVolumnL (q : GoodsQueryParams) (sp : GoodsSearchParams) :
    Except String GoodsSearchParams :=
  match q.max_volumn_l with
  | some s =>
    (parse_safe_decimal s "max_volumn_l").map (fun v => { sp with max_volumn_l := some v })
  | none => .ok sp

/-- The `min_mass_g` block of `validate_and_parse`. -/
def gvpMinMassG (q : GoodsQueryParams) (sp : GoodsSearchParams) :
    Except String GoodsSearchParams :=
  match q.min_mass_g with
  | some s =>
    (parse_safe_decimal s "min_mass_g").map (fun v => { sp with min_mass_g := some v })
  | none => .ok sp

/-- The `max_mass_g` block of `validate_and_parse`. -/
def gvpMaxMassG (q : GoodsQueryParams) (sp : GoodsSearchParams) :
    Except String GoodsSearchParams :=
  match q.max_mass_g with
  | some s =>
    (parse_safe_decimal s "max_mass_g").map (fun v => { sp with max_mass_g := some v })
  | none => .ok sp

/-- The `min_price` block of `validate_and_parse`. -/
def gvpMinPrice (q : GoodsQueryParams) (sp : GoodsSearchParams) :
    Except String GoodsSearchParams :=
  match q.min_price with
  | some s =>
    (parse_safe_decimal s "min_price").map (fun v => { sp with min_price := some v })
  | none => .ok sp

/-- The `max_price` block of `validate_and_parse`. -/
def gvpMaxPrice (q : GoodsQueryParams) (sp : GoodsSearchParams) :
    Except String GoodsSearchParams :=
  match q.max_price with
  | some s =>
    (parse_safe_decimal s "max_price").map (fun v => { sp with max_price := some v })
  | none => .ok sp

/-- `GoodsQueryParams::validate_and_parse`: the twelve field blocks in
declaration order, starting from `GoodsSearchParams::new()`; the first
failure aborts. -/
def goodsValidateAndParse (q : GoodsQueryParams) : Except String GoodsSearchParams :=
  gvpGoodsId q GoodsSearchParams.new >>= gvpMaterialCode q >>= gvpGoodsName q
    >>= gvpPrice q >>= gvpVolumnL q >>= gvpMassG q >>= gvpMinVolumnL q
    >>= gvpMaxVolumnL q >>= gvpMinMassG q >>= gvpMaxMassG q
    >>= gvpMinPrice q >>= gvpMaxPrice q


/-! ## The predicate compiler output (conditions and bind values) -/

/-- A value bound to a placeholder: integer, string, decimal or timestamp. -/
inductive BindVal where
  | i : Int → BindVal
  | s : String → BindVal
  | q : Rat → BindVal
  | t : Int → BindVal
deriving DecidableEq

/-- The accumulation step shared by every `if ... { bind_count += 1;
conditions.push(format!("... ${}", bind_count)) }` block of the two search
functions, folded over the blocks in source order: `Bool` is the block's
guard and `String` the condition text before the placeholder. -/
def condCompile : Nat → List (Bool × String) → List String
  | _, [] => []
  | n, (g, c) :: rest =>
    if g then (c ++ toString (n + 1)) :: condCompile (n + 1) rest
    else condCompile n rest

/-- The guard/condition table of `GoodsTable::search`, in source order
(src/tables/goods_table.rs lines 104-162). -/
def goodsCondSpec (p : GoodsSearchParams) : List (Bool × String) :=
  [(p.goods_id.isSome, " AND goods_id = $"),
   (p.material_code.isSome && !(goodsIsGetAll p), " AND material_code ILIKE $"),
   (p.goods_name.isSome && !(goodsIsGetAll p), " AND goods_name ILIKE $"),
   (p.price.isSome, " AND price = $"),
   (p.volumn_l.isSome, " AND volumn_l = $"),
   (p.mass_g.isSome, " AND mass_g = $"),
   (p.min_volumn_l.isSome, " AND volumn_l >= $"),
   (p.max_volumn_l.isSome, " AND volumn_l <= $"),
   (p.min_mass_g.isSome, " AND mass_g >= $"),
   (p.max_mass_g.isSome, " AND mass_g <= $"),
   (p.min_price.isSome, " AND price >= $"),
   (p.max_price.isSome, " AND price <= $")]

/-- The condition list compiled by `GoodsTable::search`. -/
def goodsConditions (p : GoodsSearchParams) : List String :=
  condCompile 0 (goodsCondSpec p)

/-- The bind chain of `GoodsTable::search` (src/tables/goods_table.rs lines
172-222), in source order; the text fields skip the bind when the value is
`"*"`. -/
def goodsBindSpec (p : GoodsSearchParams) : List (Option BindVal) :=
  [p.goods_id.map BindVal.i,
   (match p.material_code with
    | some mc => if mc == "*" then none else some (BindVal.s (toSearchPattern mc))
    | none => none),
   (match p.goods_name with
    | some gn => if gn == "*" then none else some (BindVal.s (toSearchPattern gn))
    | none => none),
   p.price.map BindVal.q,
   p.volumn_l.map BindVal.q,
   p.mass_g.map BindVal.q,
   p.min_volumn_l.map BindVal.q,
   p.max_volumn_l.map BindVal.q,
   p.min_mass_g.map BindVal.q,
   p.max_mass_g.map BindVal.q,
   p.min_price.map BindVal.q,
   p.max_price.map BindVal.q]

/-- The bind-value list of `GoodsTable::search` in bind order. -/
def goodsBinds (p : GoodsSearchParams) : List BindVal :=
  (goodsBindSpec p).filterMap id

/-- The guard/condition table of `InventoryTable::search`, in source order
(src/tables/inventory_table.rs lines 132-226): the seven Inventory-specific
blocks, then the twelve embedded Goods blocks. -/
def invCondSpec (ip : InventorySearchParams) : List (Bool × String) :=
  [(ip.item_id.isSome, " AND i.item_id = $"),
   (ip.quantity.isSome, " AND i.quantity = $"),
   (ip.min_quantity.isSome, " AND i.quantity >= $"),
   (ip.max_quantity.isSome, " AND i.quantity <= $"),
   (ip.expired_date.isSome, " AND i.expired_date = $"),
   (ip.min_expired_date.isSome, " AND i.expired_date >= $"),
   (ip.max_expired_date.isSome, " AND i.expired_date <= $"),
   (ip.goods_params.goods_id.isSome, " AND g.goods_id = $"),
   (ip.goods_params.material_code.isSome && !(goodsIsGetAll ip.goods_params),
    " AND g.material_code ILIKE $"),
   (ip.goods_params.goods_name.isSome && !(goodsIsGetAll ip.goods_params),
    " AND g.goods_name ILIKE $"),
   (ip.goods_params.price.isSome, " AND g.price = $"),
   (ip.goods_params.volumn_l.isSome, " AND g.volumn_l = $"),
   (ip.goods_params.mass_g.isSome, " AND g.mass_g = $"),
   (ip.goods_params.min_volumn_l.isSome, " AND g.volumn_l >= $"),
   (ip.goods_params.max_volumn_l.isSome, " AND g.volumn_l <= $"),
   (ip.goods_params.min_mass_g.isSome, " AND g.mass_g >= $"),
   (ip.goods_params.max_mass_g.isSome, " AND g.mass_g <= $"),
   (ip.goods_params.min_price.isSome, " AND g.price >= $"),
   (ip.goods_params.max_price.isSome, " AND g.price <= $")]

/-- The condition list compiled by `InventoryTable::search`. -/
def invConditions (ip : InventorySearchParams) : List String :=
  condCompile 0 (invCondSpec ip)

/-- The bind chain of `InventoryTable::search` (src/tables/inventory_table.rs
lines 236-314), in source order. -/
def invBindSpec (ip : InventorySearchParams) : List (Option BindVal) :=
  [ip.item_id.map BindVal.i,
   ip.quantity.map BindVal.i,
   ip.min_quantity.map BindVal.i,
   ip.max_quantity.map BindVal.i,
   ip.expired_date.map BindVal.t,
   ip.min_expired_date.map BindVal.t,
   ip.max_expired_date.map BindVal.t,
   ip.goods_params.goods_id.map BindVal.i,
   (match ip.goods_params.material_code with
    | some mc => if mc == "*" then none else some (BindVal.s (toSearchPattern mc))
    | none => none),
   (match ip.goods_params.goods_name with
    | some gn => if gn == "*" then none else some (BindVal.s (toSearchPattern gn))
    | none => none),
   ip.goods_params.price.map BindVal.q,
   ip.goods_params.volumn_l.map BindVal.q,
   ip.goods_params.mass_g.map BindVal.q,
   ip.goods_params.min_volumn_l.map BindVal.q,
   ip.goods_params.max_volumn_l.map BindVal.q,
   ip.goods_params.min_mass_g.map BindVal.q,
   ip.goods_params.max_mass_g.map BindVal.q,
   ip.goods_params.min_price.map BindVal.q,
   ip.goods_params.max_price.map BindVal.q]

/-- The bind-value list of `InventoryTable::search` in bind order. -/
def invBinds (ip : InventorySearchParams) : List BindVal :=
  (invBindSpec ip).filterMap id

/-! Specification-side view of the compiler: the ordered list of *present*
fields, each as its condition text paired with its bind value. -/

/-- Number a list of condition/value pairs: the i-th condition receives the
placeholder `$(n+i+1)`. -/
def numberConds : Nat → List (String × BindVal) → List String
  | _, [] => []
  | n, (c, _) :: rest => (c ++ toString (n + 1)) :: numberConds (n + 1) rest

/-- Declaration-order present-field segments of a Goods filter (spec side):
one entry per filter field, `none` when the field is absent. -/
def goodsSegs (p : GoodsSearchParams) : List (Option (String × BindVal)) :=
  [p.goods_id.map (fun v => (" AND goods_id = $", BindVal.i v)),
   p.material_code.map (fun mc => (" AND material_code ILIKE $", BindVal.s (toSearchPattern mc))),
   p.goods_name.map (fun gn => (" AND goods_name ILIKE $", BindVal.s (toSearchPattern gn))),
   p.price.map (fun v => (" AND price = $", BindVal.q v)),
   p.volumn_l.map (fun v => (" AND volumn_l = $", BindVal.q v)),
   p.mass_g.map (fun v => (" AND mass_g = $", BindVal.q v)),
   p.min_volumn_l.map (fun v => (" AND volumn_l >= $", BindVal.q v)),
   p.max_volumn_l.map (fun v => (" AND volumn_l <= $", BindVal.q v)),
   p.min_mass_g.map (fun v => (" AND mass_g >= $", BindVal.q v)),
   p.max_mass_g.map (fun v => (" AND mass_g <= $", BindVal.q v)),
   p.min_price.map (fun v => (" AND price >= $", BindVal.q v)),
   p.max_price.map (fun v => (" AND price <= $", BindVal.q v))]

/-- Declaration-order present-field segments of an Inventory filter (spec
side): the seven Inventory-specific fields, then the embedded Goods fields. -/
def invSegs (ip : InventorySearchParams) : List (Option (String × BindVal)) :=
  [ip.item_id.map (fun v => (" AND i.item_id = $", BindVal.i v)),
   ip.quantity.map (fun v => (" AND i.quantity = $", BindVal.i v)),
   ip.min_quantity.map (fun v => (" AND i.quantity >= $", BindVal.i v)),
   ip.max_quantity.map (fun v => (" AND i.quantity <= $", BindVal.i v)),
   ip.expired_date.map (fun v => (" AND i.expired_date = $", BindVal.t v)),
   ip.min_expired_date.map (fun v => (" AND i.expired_date >= $", BindVal.t v)),
   ip.max_expired_date.map (fun v => (" AND i.expired_date <= $", BindVal.t v)),
   ip.goods_params.goods_id.map (fun v => (" AND g.goods_id = $", BindVal.i v)),
   ip.goods_params.material_code.map
     (fun mc => (" AND g.material_code ILIKE $", BindVal.s (toSearchPattern mc))),
   ip.goods_params.goods_name.map
     (fun gn => (" AND g.goods_name ILIKE $", BindVal.s (toSearchPattern gn))),
   ip.goods_params.price.map (fun v => (" AND g.price = $", BindVal.q v)),
   ip.goods_params.volumn_l.map (fun v => (" AND g.volumn_l = $", BindVal.q v)),
   ip.goods_params.mass_g.map (fun v => (" AND g.mass_g = $", BindVal.q v)),
   ip.goods_params.min_volumn_l.map (fun v => (" AND g.volumn_l >= $", BindVal.q v)),
   ip.goods_params.max_volumn_l.map (fun v => (" AND g.volumn_l <= $", BindVal.q v)),
   ip.goods_params.min_mass_g.map (fun v => (" AND g.mass_g >= $", BindVal.q v)),
   ip.goods_params.max_mass_g.map (fun v => (" AND g.mass_g <= $", BindVal.q v)),
   ip.goods_params.min_price.map (fun v => (" AND g.price >= $", BindVal.q v)),
   ip.goods_params.max_price.map (fun v => (" AND g.price <= $", BindVal.q v))]

/-- A guard/condition entry realises a spec segment: the guard is the
segment's presence and, when present, the condition text agrees. -/
def SegMatch (a : Bool × String) (o : Option (String × BindVal)) : Prop :=
  match o with
  | none => a.1 = false
  | some pr => a.1 = true ∧ a.2 = pr.1

/-- A bind entry realises a spec segment: it is the segment's value. -/
def BindValMatch (ob : Option BindVal) (o : Option (String × BindVal)) : Prop :=
  ob = o.map Prod.snd

/-! ## Auxiliary notions used by the theorems -/

/-- The identity-and-expiry projection of an inventory row (everything except
`quantity`). -/
def invKey (it : InventoryItem) : Int × Int × Option Int :=
  (it.item_id, it.goods_id, it.expired_date)

/-- Per-row relation of an inventory write: same row identity, and a present
expiry can never become absent. -/
def RelI (a b : InventoryItem) : Prop :=
  a.item_id = b.item_id ∧ (a.expired_date.isSome = true → b.expired_date.isSome = true)

/-- Per-row relation of a goods write: same key, and a present description
can never become absent. -/
def RelG (a b : Good) : Prop :=
  a.goods_id = b.goods_id ∧ (a.description.isSome = true → b.description.isSome = true)

/-! ## Concrete example inputs for the witness theorems -/

/-- Example goods row 1. -/
def exG1 : Good := ⟨1, "MC1", "Widget", none, 5, 1, 100, 0, 0⟩

/-- Example goods row 2. -/
def exG2 : Good := ⟨2, "MC2", "Gadget", none, 7, 2, 200, 0, 0⟩

/-- The get-all Goods filter (`material_code = "*"`). -/
def starParams : GoodsSearchParams :=
  { GoodsSearchParams.new with material_code := some "*" }

/-- The get-all Inventory filter. -/
def starInvParams : InventorySearchParams :=
  { InventorySearchParams.new with goods_params := starParams }

/-- C1 failing input: no `goods_id`, no `material_code`, full catalog detail
supplied. -/
def c1FailingReq : CreateInventoryRequest :=
  ⟨none, none, some "Widget", none, some 5, some 1, some 100, none, none, 10, none⟩

/-- An empty store. -/
def w1db : DB := ⟨[], [], 1, 1⟩

/-- Store with one good that one inventory row references. -/
def w2db : DB := ⟨[exG1], [⟨1, 1, 10, none⟩], 2, 2⟩

/-- Store with two goods; only the second is referenced by inventory. -/
def w8db : DB := ⟨[exG1, exG2], [⟨1, 2, 10, none⟩], 3, 2⟩

/-- Store with two goods and no inventory. -/
def w4db : DB := ⟨[exG2, exG1], [], 3, 1⟩

/-- Store with one good and no inventory. -/
def w5db : DB := ⟨[exG1], [], 2, 1⟩

/-- A create request re-using `exG1`'s material code with different fields. -/
def w5req : CreateGoodRequest := ⟨"MC1", "Different", none, 9, 3, 50, none, none⟩

/-- An inventory create targeting goods 1 with no expiry. -/
def w6req : CreateInventoryRequest :=
  ⟨some 1, none, none, none, none, none, none, none, none, 10, none⟩

/-- An inventory patch setting only `quantity`. -/
def w7u : UpdateInventoryRequest :=
  ⟨none, none, none, none, none, none, none, none, some 99, none⟩

/-- A Goods filter with one equality and one range field present. -/
def w3p : GoodsSearchParams :=
  { GoodsSearchParams.new with goods_id := some 7, min_price := some 2 }

/-- An Inventory filter with inventory and goods fields present. -/
def w3ip : InventorySearchParams :=
  { InventorySearchParams.new with
      min_quantity := some 1, expired_date := some 0,
      goods_params := { GoodsSearchParams.new with material_code := some "ABC" } }

/-- The C3 counterexample filter: only `min_quantity` (a range field) and
`expired_date` (an equality field) present. -/
def cx3ip : InventorySearchParams :=
  { InventorySearchParams.new with min_quantity := some 1, expired_date := some 0 }

/-- A Goods query whose `material_code` is the legitimate word `"Selector"`. -/
def w10q : GoodsQueryParams :=
  ⟨none, some "Selector", none, none, none, none, none, none, none, none, none, none⟩

/-- The string `O'Brien` (built character-wise; 39 is the apostrophe). -/
def oBrien : String :=
  ⟨['O', Char.ofNat 39, 'B', 'r', 'i', 'e', 'n']⟩

/-- A store `db1` agrees with `db0` on everything the only-quantity patch
must not touch: the whole goods table, and every inventory row's identity and
expiry (`invKey`). -/
def FrameQ (db0 db1 : DB) : Prop :=
  db1.goods = db0.goods ∧ db1.inventory.map invKey = db0.inventory.map invKey

/-- A returned joined row whose goods fields and expiry agree with the
original store `db0`. -/
def RowOK (db0 : DB) (r : InventoryItemWithGoods) : Prop :=
  (∃ g ∈ db0.goods, g.goods_id = r.goods_id ∧ r.material_code = g.material_code
    ∧ r.goods_name = g.goods_name ∧ r.description = g.description ∧ r.price = g.price
    ∧ r.volumn_l = g.volumn_l ∧ r.mass_g = g.mass_g ∧ r.mass_base = g.mass_base
    ∧ r.volumn_base = g.volumn_base)
  ∧ (∃ it ∈ db0.inventory, it.item_id = r.item_id ∧ r.expired_date = it.expired_date)

/-- Row-by-row evolution of a store under update writes: every inventory row
keeps its identity and never loses a present expiry, every goods row keeps
its key and never loses a present description. -/
def RelDB (db0 db1 : DB) : Prop :=
  List.Forall₂ RelI db0.inventory db1.inventory ∧ List.Forall₂ RelG db0.goods db1.goods

/-! ## Helper lemmas -/

theorem mem_insertSorted {le : α → α → Bool} {x a : α} {l : List α} :
    a ∈ insertSorted le x l ↔ a = x ∨ a ∈ l := by
  induction l with
  | nil => simp [insertSorted]
  | cons b t ih =>
    simp only [insertSorted]
    split
    · simp [List.mem_cons]
    · simp only [List.mem_cons, ih]
      tauto

theorem mem_sortBy {le : α → α → Bool} {a : α} {l : List α} :
    a ∈ sortBy le l ↔ a ∈ l := by
  induction l with
  | nil => simp [sortBy]
  | cons b t ih =>
    simp only [sortBy, List.foldr_cons] at *
    rw [mem_insertSorted, ih]
    simp [List.mem_cons]

theorem goodsSearch_subset {db : DB} {p : GoodsSearchParams} {g : Good}
    (h : g ∈ goodsSearch db p) : g ∈ db.goods := by
  unfold goodsSearch at h
  split at h
  · exact mem_sortBy.mp h
  · exact (List.mem_filter.mp (mem_sortBy.mp h)).1

/-! ## Claim theorems -/

/-- Claim C4 (confirmed): a `"*"` sentinel on `material_code` or `goods_name`
makes `GoodsTable::search` return exactly the unconditional ordered scan
`get_all`, whatever the other filter fields are; analogously for
`InventoryTable::search` when the embedded goods filter is get-all. -/
theorem get_all_sentinel_equivalence (db : DB) (p : GoodsSearchParams)
    (ip : InventorySearchParams) :
    ((p.material_code = some "*" ∨ p.goods_name = some "*") →
      goodsSearch db p = goodsGetAll db)
    ∧ ((ip.goods_params.material_code = some "*" ∨ ip.goods_params.goods_name = some "*") →
      inventorySearch db ip = invGetAll db) := by
  constructor
  · intro h
    have hg : goodsIsGetAll p = true := by
      rcases h with h | h <;> simp [goodsIsGetAll, h]
    simp [goodsSearch, hg]
  · intro h
    have hg : invIsGetAll ip = true := by
      rcases h with h | h <;> simp [invIsGetAll, goodsIsGetAll, h]
    simp [inventorySearch, hg]

theorem get_all_sentinel_equivalence_witness :
    goodsSearch w4db starParams = goodsGetAll w4db
    ∧ inventorySearch w2db starInvParams = invGetAll w2db :=
  ⟨(get_all_sentinel_equivalence w4db starParams starInvParams).1 (Or.inl rfl),
   (get_all_sentinel_equivalence w2db starParams starInvParams).2 (Or.inl rfl)⟩

/-- Claim C5 (confirmed): `GoodsTable::insert` is idempotent keyed on
`material_code`: when a row with the request's `material_code` exists, the
first such row is returned unchanged, the store is left untouched (so the
effective "created" signal is false), and no error is raised; when none
exists, a new row is inserted and returned. -/
theorem goods_insert_idempotent (db : DB) (r : CreateGoodRequest) :
    (∀ g0, getByMaterialCode db r.material_code = some g0 →
      goodsInsert db r = (db, .ok g0))
    ∧ (getByMaterialCode db r.material_code = none →
      goodsInsert db r =
        ({ db with goods := db.goods ++ [mkGood db r], next_goods_id := db.next_goods_id + 1 },
         .ok (mkGood db r))
      ∧ ((goodsInsert db r).1).goods.length = db.goods.length + 1) := by
  constructor
  · intro g0 h
    simp [goodsInsert, h]
  · intro h
    refine ⟨by simp [goodsInsert, h], ?_⟩
    simp [goodsInsert, h]

theorem goods_insert_idempotent_witness :
    goodsInsert w5db w5req = (w5db, .ok exG1) :=
  (goods_insert_idempotent w5db w5req).1 exG1 rfl

/-- Claim C1 (code bug): whenever `goods_id` and `material_code` are both
absent and `goods_name`, `price`, `volumn_l`, `mass_g` are all supplied,
`InventoryTable::insert` does **not** implicitly create a Good: the
implicit-creation branch immediately demands `request.material_code`, which
in that branch is necessarily absent, so the call always fails with
`ColumnNotFound` and leaves the store unchanged — even though
`CreateInventoryRequest::validate` explicitly accepts such requests. -/
theorem inventory_insert_implicit_creation_unreachable :
    (∀ (db : DB) (req : CreateInventoryRequest),
      req.goods_id = none → req.material_code = none →
      req.goods_name.isSome = true → req.price.isSome = true →
      req.volumn_l.isSome = true → req.mass_g.isSome = true →
      inventoryInsert db req =
        (db, .error (.columnNotFound "material_code is required for new goods")))
    ∧ validateCreateInventory c1FailingReq = .ok () := by
  constructor
  · intro db req h1 h2 h3 h4 h5 h6
    have hres : resolveGoodsId db req =
        (db, .error (.columnNotFound "material_code is required for new goods")) := by
      simp [resolveGoodsId, h1, h2, h3, h4, h5, h6]
    simp [inventoryInsert, hres]
  · rfl

theorem inventory_insert_implicit_creation_unreachable_witness :
    inventoryInsert w1db c1FailingReq =
      (w1db, .error (.columnNotFound "material_code is required for new goods")) :=
  (inventory_insert_implicit_creation_unreachable).1 w1db c1FailingReq rfl rfl rfl rfl rfl rfl

theorem validate_safe_string_unsafe {s : String} (fn : String)
    (h : is_safe_string s = false) : ∃ e, validate_safe_string s fn = .error e := by
  cases hs : s.isEmpty with
  | true => exact ⟨fn ++ " cannot be empty", by simp [validate_safe_string, hs]⟩
  | false => exact ⟨"Invalid " ++ fn, by simp [validate_safe_string, hs, h]⟩

theorem validateDescList_unsafe {s : String} (hu : is_safe_string s = false) :
    ∀ (l : List String) (k : Nat), s ∈ l → ∃ e, validateDescList l k = .error e := by
  intro l
  induction l with
  | nil => intro k hmem; exact absurd hmem (List.not_mem_nil s)
  | cons a t ih =>
    intro k hmem
    rcases List.mem_cons.mp hmem with rfl | hmem
    · obtain ⟨e, he⟩ := validate_safe_string_unsafe ("description[" ++ toString k ++ "]") hu
      exact ⟨e, by simp [validateDescList, he, Bind.bind, Except.bind]⟩
    · cases hv : validate_safe_string a ("description[" ++ toString k ++ "]") with
      | error e0 => exact ⟨e0, by simp [validateDescList, hv, Bind.bind, Except.bind]⟩
      | ok u =>
        obtain ⟨e, he⟩ := ih (k + 1) hmem
        exact ⟨e, by simp [validateDescList, hv, he, Bind.bind, Except.bind]⟩


theorem error_bind {ε α β : Type} (e : ε) (f : α → Except ε β) :
    (Except.error e >>= f : Except ε β) = .error e := rfl

theorem ok_bind {ε α β : Type} (a : α) (f : α → Except ε β) :
    (Except.ok a >>= f : Except ε β) = f a := rfl

/-- Claim C10 (confirmed): `is_safe_string` rejects every empty string and
every string whose lowercase form contains one of the twenty fixed dangerous
substrings (so a legitimate value such as `"Selector"` or `O'Brien` is
rejected), while the exact string `"*"` is always accepted; and
`validate_safe_string` is applied to `material_code`, `goods_name` and
description values in query filters, create requests and update patches, so
an unsafe value makes those interface functions fail before any store
access. -/
theorem safe_string_over_rejection :
    (∀ s fn, s = "" → validate_safe_string s fn = .error (fn ++ " cannot be empty"))
    ∧ (∀ s p, p ∈ dangerousPatterns → containsSub (rustToLower s) p = true →
        is_safe_string s = false)
    ∧ is_safe_string "Selector" = false
    ∧ is_safe_string oBrien = false
    ∧ (∀ fn, validate_safe_string "*" fn = .ok ())
    ∧ (∀ (q : GoodsQueryParams) s, q.material_code = some s → is_safe_string s = false →
        ∃ e, goodsValidateAndParse q = .error e)
    ∧ (∀ (q : GoodsQueryParams) s, q.goods_name = some s → is_safe_string s = false →
        ∃ e, goodsValidateAndParse q = .error e)
    ∧ (∀ (r : CreateGoodRequest), is_safe_string r.material_code = false →
        ∃ e, validateCreateGood r = .error e)
    ∧ (∀ (r : CreateGoodRequest) d s, r.description = some d → s ∈ d →
        is_safe_string s = false → ∃ e, validateCreateGood r = .error e)
    ∧ (∀ (u : UpdateInventoryRequest) s, u.material_code = some s →
        is_safe_string s = false → ∃ e, validateUpdateInventory u = .error e) := by
  refine ⟨?_, ?_, by decide, by decide, ?_, ?_, ?_, ?_, ?_, ?_⟩
  · intro s fn hs
    subst hs
    rfl
  · intro s p hp hc
    unfold is_safe_string
    cases hs : s.isEmpty with
    | true => simp
    | false =>
      cases hstar : s == "*" with
      | true =>
        exfalso
        have hse : s = "*" := by simpa using hstar
        subst hse
        fin_cases hp <;> exact absurd hc (by decide)
      | false =>
        have hany : dangerousPatterns.any (fun q => containsSub (rustToLower s) q) = true :=
          List.any_eq_true.mpr ⟨p, hp, hc⟩
        simp [hs, hstar, hany]
  · intro fn
    have h1 : ("*" : String).isEmpty = false := by decide
    have h2 : is_safe_string "*" = true := by decide
    simp [validate_safe_string, h1, h2]
  · intro q s hmc hu
    obtain ⟨e, he⟩ := validate_safe_string_unsafe "material_code" hu
    have hstep : ∀ sp, gvpMaterialCode q sp = .error e := by
      intro sp
      simp [gvpMaterialCode, hmc, he, Except.map]
    cases h0 : gvpGoodsId q GoodsSearchParams.new with
    | error e0 =>
      exact ⟨e0, by simp only [goodsValidateAndParse, h0, error_bind]⟩
    | ok sp0 =>
      exact ⟨e, by simp only [goodsValidateAndParse, h0, ok_bind, hstep, error_bind]⟩
  · intro q s hgn hu
    obtain ⟨e, he⟩ := validate_safe_string_unsafe "goods_name" hu
    have hstep : ∀ sp, gvpGoodsName q sp = .error e := by
      intro sp
      simp [gvpGoodsName, hgn, he, Except.map]
    cases h0 : gvpGoodsId q GoodsSearchParams.new with
    | error e0 =>
      exact ⟨e0, by simp only [goodsValidateAndParse, h0, error_bind]⟩
    | ok sp0 =>
      cases h1 : gvpMaterialCode q sp0 with
      | error e1 =>
        exact ⟨e1, by simp only [goodsValidateAndParse, h0, ok_bind, h1, error_bind]⟩
      | ok sp1 =>
        exact ⟨e, by simp only [goodsValidateAndParse, h0, ok_bind, h1, hstep, error_bind]⟩
  · intro r hu
    obtain ⟨e, he⟩ := validate_safe_string_unsafe "material_code" hu
    simp only [validateCreateGood, he, error_bind, ok_bind, pure_bind]
    exact ⟨_, rfl⟩
  · intro r d s hd hmem hu
    cases h1 : validate_safe_string r.material_code "material_code" with
    | error e0 =>
      simp only [validateCreateGood, h1, error_bind, ok_bind, pure_bind]
      exact ⟨_, rfl⟩
    | ok u1 =>
      cases h2 : validate_safe_string r.goods_name "goods_name" with
      | error e0 =>
        simp only [validateCreateGood, h1, h2, error_bind, ok_bind, pure_bind]
        exact ⟨_, rfl⟩
      | ok u2 =>
        obtain ⟨e, he⟩ := validateDescList_unsafe hu d 0 hmem
        simp only [validateCreateGood, h1, h2, hd, he, error_bind, ok_bind, pure_bind]
        exact ⟨_, rfl⟩
  · intro u s hmc hu
    obtain ⟨e, he⟩ := validate_safe_string_unsafe "material_code" hu
    simp only [validateUpdateInventory, hmc, he, Option.isNone_some, Bool.false_and,
      Bool.and_false, error_bind, ok_bind, pure_bind]
    simp only [Bool.false_eq_true, if_false, error_bind, ok_bind, pure_bind]
    exact ⟨_, rfl⟩

theorem safe_string_over_rejection_witness :
    validate_safe_string "" "material_code" = .error "material_code cannot be empty"
    ∧ is_safe_string "Selector" = false
    ∧ validate_safe_string "*" "goods_name" = .ok ()
    ∧ (∃ e, goodsValidateAndParse w10q = .error e) :=
  ⟨safe_string_over_rejection.1 "" "material_code" rfl,
   safe_string_over_rejection.2.2.1,
   safe_string_over_rejection.2.2.2.2.1 "goods_name",
   safe_string_over_rejection.2.2.2.2.2.1 w10q "Selector" rfl (by decide)⟩

theorem removeGood_inventory (db : DB) (gid : Int) :
    (removeGood db gid).inventory = db.inventory := rfl

theorem goodsDeleteLoop_blocked {g : Good} :
    ∀ (gs : List Good) (db : DB) (acc : List Int),
    g ∈ gs → g ∈ db.goods → 0 < invCount db.inventory g.goods_id →
    (goodsDeleteLoop db acc gs).2 = .error .rowNotFound
    ∧ g ∈ ((goodsDeleteLoop db acc gs).1).goods := by
  intro gs
  induction gs with
  | nil =>
    intro db acc hmem hing href
    exact absurd hmem (List.not_mem_nil g)
  | cons a t ih =>
    intro db acc hmem hing href
    by_cases ha : 0 < invCount db.inventory a.goods_id
    · constructor <;> simp [goodsDeleteLoop, ha, hing]
    · have hne : g ≠ a := by
        rintro rfl
        exact ha href
      have hmem2 : g ∈ t := by
        rcases List.mem_cons.mp hmem with h | h
        · exact absurd h hne
        · exact h
      have hid : g.goods_id ≠ a.goods_id := by
        intro hEq
        rw [hEq] at href
        exact ha href
      have hing2 : g ∈ (removeGood db a.goods_id).goods := by
        simp [removeGood, List.mem_filter, hing, hid]
      have href2 : 0 < invCount (removeGood db a.goods_id).inventory g.goods_id := by
        rw [removeGood_inventory]
        exact href
      rw [show goodsDeleteLoop db acc (a :: t)
          = goodsDeleteLoop (removeGood db a.goods_id) (acc ++ [a.goods_id]) t from by
        simp [goodsDeleteLoop, ha]]
      exact ih _ _ hmem2 hing2 href2

/-- Claim C2 (amended): deleting via a filter that selects a Good with at
least one referencing InventoryItem fails — but with `sqlx::Error::RowNotFound`,
the very error the classifier renders as the not-found condition, not with a
distinct referential-conflict error — and the referenced Good row is not
deleted. -/
theorem goods_delete_blocked (db : DB) (p : GoodsSearchParams) (g : Good)
    (hg : g ∈ goodsSearch db p)
    (href : 0 < invCount db.inventory g.goods_id) :
    (goodsDelete db p).2 = .error .rowNotFound
    ∧ g ∈ ((goodsDelete db p).1).goods
    ∧ formatDatabaseError .rowNotFound "goods deletion"
        = "No records found for goods deletion" := by
  have hing : g ∈ db.goods := goodsSearch_subset hg
  have hne : ¬ ((goodsSearch db p).isEmpty = true) := by
    intro h
    rw [List.isEmpty_iff] at h
    rw [h] at hg
    exact absurd hg (List.not_mem_nil g)
  have hloop := goodsDeleteLoop_blocked (goodsSearch db p) db [] hg hing href
  unfold goodsDelete
  rw [if_neg hne]
  exact ⟨hloop.1, hloop.2, rfl⟩

/-- Counterexample to claim C2 as stated: on a store whose single Good is
referenced by one InventoryItem, delete produces exactly `RowNotFound`, which
`format_database_error` classifies as the not-found condition; the
foreign-key (referential-conflict) classification is a different message the
blocked path never produces. -/
theorem goods_delete_blocked_counterexample :
    (goodsDelete w2db starParams).2 = .error DbErr.rowNotFound
    ∧ formatDatabaseError DbErr.rowNotFound "goods deletion"
        = "No records found for goods deletion"
    ∧ formatDatabaseError (DbErr.database (some "23503")) "goods deletion"
        = "Cannot perform operation due to foreign key constraint" := by
  refine ⟨rfl, rfl, rfl⟩

theorem goods_delete_blocked_witness :
    (goodsDelete w2db starParams).2 = .error DbErr.rowNotFound
    ∧ exG1 ∈ ((goodsDelete w2db starParams).1).goods := by
  have h := goods_delete_blocked w2db starParams exG1 (by decide) (by decide)
  exact ⟨h.1, h.2.1⟩

theorem goodsDeleteLoop_split :
    ∀ (pre : List Good) (db : DB) (acc : List Int) (bad : Good) (rest : List Good),
    (∀ x ∈ pre, invCount db.inventory x.goods_id = 0) →
    0 < invCount db.inventory bad.goods_id →
    goodsDeleteLoop db acc (pre ++ bad :: rest)
      = (removeGoods db (pre.map (fun x => x.goods_id)), .error .rowNotFound) := by
  intro pre
  induction pre with
  | nil =>
    intro db acc bad rest hpre hbad
    simp [goodsDeleteLoop, hbad, removeGoods]
  | cons a t ih =>
    intro db acc bad rest hpre hbad
    have ha0 : invCount db.inventory a.goods_id = 0 := hpre a (List.mem_cons_self a t)
    have hnot : ¬ 0 < invCount db.inventory a.goods_id := by
      rw [ha0]
      exact Nat.lt_irrefl 0
    rw [show ((a :: t) ++ bad :: rest) = a :: (t ++ bad :: rest) from rfl]
    rw [show goodsDeleteLoop db acc (a :: (t ++ bad :: rest))
        = goodsDeleteLoop (removeGood db a.goods_id) (acc ++ [a.goods_id]) (t ++ bad :: rest)
        from by simp [goodsDeleteLoop, hnot]]
    rw [ih (removeGood db a.goods_id) (acc ++ [a.goods_id]) bad rest
      (fun x hx => by rw [removeGood_inventory]; exact hpre x (List.mem_cons_of_mem a hx))
      (by rw [removeGood_inventory]; exact hbad)]
    rfl

theorem mem_removeGoods_subset {g : Good} :
    ∀ (ids : List Int) (db : DB), g ∈ (removeGoods db ids).goods → g ∈ db.goods := by
  intro ids
  induction ids with
  | nil => intro db h; exact h
  | cons i t ih =>
    intro db h
    have h2 : g ∈ (removeGood db i).goods := ih (removeGood db i) h
    exact (List.mem_filter.mp h2).1

theorem not_mem_removeGoods {g : Good} :
    ∀ (ids : List Int) (db : DB), g.goods_id ∈ ids → g ∉ (removeGoods db ids).goods := by
  intro ids
  induction ids with
  | nil => intro db h; exact absurd h (List.not_mem_nil _)
  | cons i t ih =>
    intro db hmem hging
    rcases List.mem_cons.mp hmem with h | h
    · have h2 : g ∈ (removeGood db i).goods := mem_removeGoods_subset t _ hging
      have h3 := (List.mem_filter.mp h2).2
      simp [h] at h3
    · exact ih (removeGood db i) h hging

/-- Claim C8 (confirmed): goods batch delete is not atomic: when the selected
rows are `pre ++ bad :: rest` with every row of `pre` unreferenced and `bad`
referenced, the call fails with the blocked-row error while all rows of `pre`
have already been deleted from the store. -/
theorem goods_delete_not_atomic (db : DB) (p : GoodsSearchParams)
    (pre : List Good) (bad : Good) (rest : List Good)
    (hsel : goodsSearch db p = pre ++ bad :: rest)
    (hpre : ∀ x ∈ pre, invCount db.inventory x.goods_id = 0)
    (hbad : 0 < invCount db.inventory bad.goods_id) :
    (goodsDelete db p).2 = .error .rowNotFound
    ∧ (goodsDelete db p).1 = removeGoods db (pre.map (fun x => x.goods_id))
    ∧ ∀ x ∈ pre, x ∉ ((goodsDelete db p).1).goods := by
  have hne : ¬ ((goodsSearch db p).isEmpty = true) := by
    rw [hsel]
    simp
  unfold goodsDelete
  rw [if_neg hne, hsel, goodsDeleteLoop_split pre db [] bad rest hpre hbad]
  refine ⟨rfl, rfl, ?_⟩
  intro x hx
  exact not_mem_removeGoods (pre.map (fun y => y.goods_id)) db
    (List.mem_map_of_mem (fun y => y.goods_id) hx)

theorem goods_delete_not_atomic_witness :
    (goodsDelete w8db starParams).2 = .error DbErr.rowNotFound
    ∧ (goodsDelete w8db starParams).1 = removeGoods w8db [exG1.goods_id] := by
  have h := goods_delete_not_atomic w8db starParams [exG1] exG2 []
    (by decide) (by decide) (by decide)
  exact ⟨h.1, h.2.1⟩

theorem findDup_mem {inv : List InventoryItem} {gid : Int} {ed : Option Int}
    {ex : InventoryItem} (h : findDup inv gid ed = some ex) : ex ∈ inv := by
  cases ed <;> exact List.mem_of_find?_eq_some h

theorem findDup_props {inv : List InventoryItem} {gid : Int} {ed : Option Int}
    {ex : InventoryItem} (h : findDup inv gid ed = some ex) :
    ex.goods_id = gid ∧ ex.expired_date = ed := by
  cases ed with
  | some d =>
    have hp := List.find?_some h
    simp only [Bool.and_eq_true, beq_iff_eq] at hp
    exact hp
  | none =>
    have hp := List.find?_some h
    simp only [Bool.and_eq_true, beq_iff_eq] at hp
    exact hp

theorem find?_item_id_of_pairwise {inv : List InventoryItem} {ex : InventoryItem}
    (hpw : List.Pairwise (fun a b => a.item_id ≠ b.item_id) inv) (hmem : ex ∈ inv) :
    inv.find? (fun it => it.item_id == ex.item_id) = some ex := by
  induction inv with
  | nil => exact absurd hmem (List.not_mem_nil ex)
  | cons a t ih =>
    rcases List.mem_cons.mp hmem with rfl | hmem2
    · exact List.find?_cons_of_pos _ (by simp)
    · have hneq : a.item_id ≠ ex.item_id := (List.pairwise_cons.mp hpw).1 ex hmem2
      rw [List.find?_cons_of_neg _ (by simp [hneq])]
      exact ih (List.pairwise_cons.mp hpw).2 hmem2

/-- Claim C6 (confirmed): after goods resolution, `InventoryTable::insert`
deduplicates on the `(goods_id, expired_date)` key with a null expiry as its
own class: a found duplicate has exactly the resolved `goods_id` and exactly
the request's `expired_date` (so a dated insert never matches a null-expiry
row and vice versa) and is returned joined with its Good and
`was_created = false`, with the store unchanged; with no duplicate a new row
is inserted and returned with `was_created = true`.  The third part pins the
returned row to the existing row (identical quantity included) whenever
`item_id` is a proper key. -/
theorem inventory_insert_dedup (db db2 : DB) (req : CreateInventoryRequest) (gid : Int)
    (hres : resolveGoodsId db req = (db2, .ok gid)) :
    (∀ ex, findDup db2.inventory gid req.expired_date = some ex →
      ex.goods_id = gid ∧ ex.expired_date = req.expired_date
      ∧ inventoryInsert db req = (db2, (getByItemId db2 ex.item_id).map (fun j => (j, false))))
    ∧ (findDup db2.inventory gid req.expired_date = none →
      inventoryInsert db req
        = (pushInv db2 gid req,
           (getByItemId (pushInv db2 gid req) db2.next_item_id).map (fun j => (j, true))))
    ∧ (∀ ex j fl, findDup db2.inventory gid req.expired_date = some ex →
      List.Pairwise (fun a b => a.item_id ≠ b.item_id) db2.inventory →
      inventoryInsert db req = (db2, .ok (j, fl)) →
      fl = false ∧ j.item_id = ex.item_id ∧ j.goods_id = ex.goods_id
        ∧ j.quantity = ex.quantity ∧ j.expired_date = ex.expired_date) := by
  refine ⟨?_, ?_, ?_⟩
  · intro ex hdup
    obtain ⟨h1, h2⟩ := findDup_props hdup
    refine ⟨h1, h2, ?_⟩
    simp only [inventoryInsert, hres, hdup]
  · intro hdup
    simp only [inventoryInsert, hres, hdup]
  · intro ex j fl hdup hpw heq
    have hins : inventoryInsert db req
        = (db2, (getByItemId db2 ex.item_id).map (fun j => (j, false))) := by
      simp only [inventoryInsert, hres, hdup]
    rw [hins] at heq
    have hmem : ex ∈ db2.inventory := findDup_mem hdup
    have hfind := find?_item_id_of_pairwise hpw hmem
    cases hgf : db2.goods.find? (fun g => g.goods_id == ex.goods_id) with
    | none =>
      rw [show getByItemId db2 ex.item_id = .error .rowNotFound from by
        simp only [getByItemId, hfind, hgf]] at heq
      have h2 := congrArg Prod.snd heq
      simp [Except.map] at h2
    | some g =>
      rw [show getByItemId db2 ex.item_id = .ok (joinRow ex g) from by
        simp only [getByItemId, hfind, hgf]] at heq
      have h2 := congrArg Prod.snd heq
      simp only [Except.map, Except.ok.injEq, Prod.mk.injEq] at h2
      obtain ⟨hj1, hfl⟩ := h2
      subst hj1
      exact ⟨hfl.symm, rfl, rfl, rfl, rfl⟩

theorem inventory_insert_dedup_witness :
    inventoryInsert w2db w6req
      = (w2db, (getByItemId w2db 1).map (fun j => (j, false))) := by
  have h := (inventory_insert_dedup w2db w2db w6req 1 rfl).1 ⟨1, 1, 10, none⟩ (by decide)
  exact h.2.2

theorem updateInvRow_goods (db : DB) (iid : Int) (u : UpdateInventoryRequest) :
    (updateInvRow db iid u).goods = db.goods := rfl

theorem updateInvRow_invKey (db : DB) (iid : Int) {u : UpdateInventoryRequest}
    (hed : u.expired_date = none) :
    ((updateInvRow db iid u).inventory).map invKey = db.inventory.map invKey := by
  show (db.inventory.map
    (fun it => if it.item_id == iid then applyInvPatch u it else it)).map invKey
    = db.inventory.map invKey
  induction db.inventory with
  | nil => rfl
  | cons a t ih =>
    simp only [List.map_cons, ih]
    by_cases haa : (a.item_id == iid) = true
    · simp [haa, applyInvPatch, invKey, coalesceO, hed]
    · simp [haa]

theorem getByItemId_RowOK {db0 db : DB} {iid : Int} {r : InventoryItemWithGoods}
    (hF : FrameQ db0 db) (h : getByItemId db iid = .ok r) : RowOK db0 r := by
  unfold getByItemId at h
  cases hfind : db.inventory.find? (fun it => it.item_id == iid) with
  | none =>
    simp only [hfind] at h
    exact absurd h (by simp)
  | some it =>
    simp only [hfind] at h
    cases hgf : db.goods.find? (fun g => g.goods_id == it.goods_id) with
    | none =>
      simp only [hgf] at h
      exact absurd h (by simp)
    | some g =>
      simp only [hgf] at h
      have hr : r = joinRow it g := (Except.ok.inj h).symm
      subst hr
      constructor
      · have hmemg : g ∈ db.goods := List.mem_of_find?_eq_some hgf
        rw [hF.1] at hmemg
        have hgid : g.goods_id = it.goods_id := by
          have := List.find?_some hgf
          simpa using this
        exact ⟨g, hmemg, hgid, rfl, rfl, rfl, rfl, rfl, rfl, rfl, rfl⟩
      · have hmemi : it ∈ db.inventory := List.mem_of_find?_eq_some hfind
        have hkey : invKey it ∈ db0.inventory.map invKey := by
          rw [← hF.2]
          exact List.mem_map_of_mem invKey hmemi
        obtain ⟨it0, hmem0, hk0⟩ := List.mem_map.mp hkey
        have h1 : it0.item_id = it.item_id := congrArg Prod.fst hk0
        have h3 : it0.expired_date = it.expired_date :=
          congrArg (fun x => x.2.2) hk0
        exact ⟨it0, hmem0, h1, h3.symm⟩

theorem invUpdLoop_frame {u : UpdateInventoryRequest}
    (hmc : u.material_code = none) (hgn : u.goods_name = none) (hd : u.description = none)
    (hp : u.price = none) (hv : u.volumn_l = none) (hm : u.mass_g = none)
    (hmb : u.mass_base = none) (hvb : u.volumn_base = none) (hed : u.expired_date = none) :
    ∀ (items : List InventoryItemWithGoods) (db0 db : DB),
    FrameQ db0 db →
    FrameQ db0 ((invUpdLoop u db items).1)
    ∧ (∀ rows, (invUpdLoop u db items).2 = .ok rows → ∀ r ∈ rows, RowOK db0 r) := by
  intro items
  induction items with
  | nil =>
    intro db0 db hF
    refine ⟨hF, ?_⟩
    intro rows hr r hrr
    have : ([] : List InventoryItemWithGoods) = rows := Except.ok.inj hr
    rw [← this] at hrr
    exact absurd hrr (List.not_mem_nil r)
  | cons item rest ih =>
    intro db0 db hF
    have hgp : goodsPatchPresent u = false := by
      simp [goodsPatchPresent, hmc, hgn, hd, hp, hv, hm, hmb, hvb]
    have hF2 : FrameQ db0 (invUpdStep u db item) := by
      unfold invUpdStep
      rw [hgp]
      simp only [Bool.false_eq_true, if_false]
      by_cases hc : (u.quantity.isSome || u.expired_date.isSome) = true
      · rw [if_pos hc]
        exact ⟨(updateInvRow_goods db item.item_id u).trans hF.1,
          (updateInvRow_invKey db item.item_id hed).trans hF.2⟩
      · rw [if_neg hc]
        exact hF
    rw [show invUpdLoop u db (item :: rest)
        = (match getByItemId (invUpdStep u db item) item.item_id with
           | .error e => (invUpdStep u db item, .error e)
           | .ok r =>
             match invUpdLoop u (invUpdStep u db item) rest with
             | (dbf, .ok rs) => (dbf, .ok (r :: rs))
             | (dbf, .error e) => (dbf, .error e)) from rfl]
    set db2 := invUpdStep u db item with hdb2
    cases hread : getByItemId db2 item.item_id with
    | error e =>
      refine ⟨hF2, ?_⟩
      intro rows hr
      exact absurd hr (by simp)
    | ok r =>
      have hROK : RowOK db0 r := getByItemId_RowOK hF2 hread
      obtain ⟨hIH1, hIH2⟩ := ih db0 db2 hF2
      cases hrec : invUpdLoop u db2 rest with
      | mk dbf res =>
        rw [hrec] at hIH1 hIH2
        cases res with
        | ok rs =>
          refine ⟨hIH1, ?_⟩
          intro rows hr x hx
          have hrows : r :: rs = rows := Except.ok.inj hr
          rw [← hrows] at hx
          rcases List.mem_cons.mp hx with rfl | hx2
          · exact hROK
          · exact hIH2 rs rfl x hx2
        | error e =>
          refine ⟨hIH1, ?_⟩
          intro rows hr
          exact absurd hr (by simp)

/-- Claim C7 (confirmed): update patches have COALESCE semantics.  The last
two conjuncts state, for arbitrary patches, that each absent field leaves
the stored value of the patched row unchanged; the first three state the
particular frame property: an `InventoryTable::update` whose patch sets only
`quantity` leaves the whole goods table unchanged, leaves every inventory
row's identity and `expired_date` unchanged, and every returned row carries
the original goods fields and expiry. -/
theorem inventory_update_only_quantity_frame (db : DB) (p : InventorySearchParams)
    (u : UpdateInventoryRequest) (q : Int)
    (hmc : u.material_code = none) (hgn : u.goods_name = none) (hd : u.description = none)
    (hp : u.price = none) (hv : u.volumn_l = none) (hm : u.mass_g = none)
    (hmb : u.mass_base = none) (hvb : u.volumn_base = none)
    (hq : u.quantity = some q) (hed : u.expired_date = none) :
    ((inventoryUpdate db p u).1).goods = db.goods
    ∧ ((inventoryUpdate db p u).1).inventory.map invKey = db.inventory.map invKey
    ∧ (∀ rows, (inventoryUpdate db p u).2 = .ok rows → ∀ r ∈ rows, RowOK db r)
    ∧ (∀ (u2 : UpdateGoodRequest) (g : Good),
        (u2.material_code = none → (applyGoodPatch u2 g).material_code = g.material_code)
        ∧ (u2.goods_name = none → (applyGoodPatch u2 g).goods_name = g.goods_name)
        ∧ (u2.description = none → (applyGoodPatch u2 g).description = g.description)
        ∧ (u2.price = none → (applyGoodPatch u2 g).price = g.price)
        ∧ (u2.volumn_l = none → (applyGoodPatch u2 g).volumn_l = g.volumn_l)
        ∧ (u2.mass_g = none → (applyGoodPatch u2 g).mass_g = g.mass_g)
        ∧ (u2.mass_base = none → (applyGoodPatch u2 g).mass_base = g.mass_base)
        ∧ (u2.volumn_base = none → (applyGoodPatch u2 g).volumn_base = g.volumn_base))
    ∧ (∀ (u3 : UpdateInventoryRequest) (it : InventoryItem),
        (u3.quantity = none → (applyInvPatch u3 it).quantity = it.quantity)
        ∧ (u3.expired_date = none → (applyInvPatch u3 it).expired_date = it.expired_date)) := by
  have hA : ∀ (u2 : UpdateGoodRequest) (g : Good),
      (u2.material_code = none → (applyGoodPatch u2 g).material_code = g.material_code)
      ∧ (u2.goods_name = none → (applyGoodPatch u2 g).goods_name = g.goods_name)
      ∧ (u2.description = none → (applyGoodPatch u2 g).description = g.description)
      ∧ (u2.price = none → (applyGoodPatch u2 g).price = g.price)
      ∧ (u2.volumn_l = none → (applyGoodPatch u2 g).volumn_l = g.volumn_l)
      ∧ (u2.mass_g = none → (applyGoodPatch u2 g).mass_g = g.mass_g)
      ∧ (u2.mass_base = none → (applyGoodPatch u2 g).mass_base = g.mass_base)
      ∧ (u2.volumn_base = none → (applyGoodPatch u2 g).volumn_base = g.volumn_base) := by
    intro u2 g
    refine ⟨?_, ?_, ?_, ?_, ?_, ?_, ?_, ?_⟩ <;>
      (intro h; simp [applyGoodPatch, coalesceO, h])
  have hB : ∀ (u3 : UpdateInventoryRequest) (it : InventoryItem),
      (u3.quantity = none → (applyInvPatch u3 it).quantity = it.quantity)
      ∧ (u3.expired_date = none → (applyInvPatch u3 it).expired_date = it.expired_date) := by
    intro u3 it
    refine ⟨?_, ?_⟩ <;> (intro h; simp [applyInvPatch, coalesceO, h])
  by_cases hE : ((inventorySearch db p).isEmpty = true)
  · have hres : inventoryUpdate db p u = (db, .ok []) := by
      simp only [inventoryUpdate, hE, if_true]
    refine ⟨by rw [hres], by rw [hres], ?_, hA, hB⟩
    intro rows hr r hrr
    rw [hres] at hr
    have : ([] : List InventoryItemWithGoods) = rows := Except.ok.inj hr
    rw [← this] at hrr
    exact absurd hrr (List.not_mem_nil r)
  · have hres : inventoryUpdate db p u = invUpdLoop u db (inventorySearch db p) := by
      simp only [inventoryUpdate]
      rw [if_neg hE]
    obtain ⟨h1, h2⟩ := invUpdLoop_frame hmc hgn hd hp hv hm hmb hvb hed
      (inventorySearch db p) db db ⟨rfl, rfl⟩
    rw [hres]
    exact ⟨h1.1, h1.2, h2, hA, hB⟩

theorem inventory_update_only_quantity_frame_witness :
    ((inventoryUpdate w2db starInvParams w7u).1).goods = w2db.goods
    ∧ ((inventoryUpdate w2db starInvParams w7u).1).inventory.map invKey
        = w2db.inventory.map invKey := by
  have h := inventory_update_only_quantity_frame w2db starInvParams w7u 99
    rfl rfl rfl rfl rfl rfl rfl rfl rfl rfl
  exact ⟨h.1, h.2.1⟩

theorem forall2_of_map {α : Type} {R : α → α → Prop} {f : α → α}
    (h : ∀ x, R x (f x)) : ∀ (l : List α), List.Forall₂ R l (l.map f) := by
  intro l
  induction l with
  | nil => exact List.Forall₂.nil
  | cons a t ih => exact List.Forall₂.cons (h a) ih

theorem forall2_trans {α : Type} {R : α → α → Prop}
    (hR : ∀ a b c, R a b → R b c → R a c) :
    ∀ {l1 l2 l3 : List α}, List.Forall₂ R l1 l2 → List.Forall₂ R l2 l3 →
    List.Forall₂ R l1 l3 := by
  intro l1 l2 l3 h12
  induction h12 generalizing l3 with
  | nil =>
    intro h23
    cases h23
    exact List.Forall₂.nil
  | cons hab hrest ih =>
    intro h23
    cases h23 with
    | cons hbc hrest2 => exact List.Forall₂.cons (hR _ _ _ hab hbc) (ih hrest2)

theorem relI_refl (a : InventoryItem) : RelI a a := ⟨rfl, fun h => h⟩

theorem relG_refl (a : Good) : RelG a a := ⟨rfl, fun h => h⟩

theorem relI_trans (a b c : InventoryItem) (h1 : RelI a b) (h2 : RelI b c) : RelI a c :=
  ⟨h1.1.trans h2.1, fun h => h2.2 (h1.2 h)⟩

theorem relG_trans (a b c : Good) (h1 : RelG a b) (h2 : RelG b c) : RelG a c :=
  ⟨h1.1.trans h2.1, fun h => h2.2 (h1.2 h)⟩

theorem forall2_relI_refl (l : List InventoryItem) : List.Forall₂ RelI l l := by
  induction l with
  | nil => exact List.Forall₂.nil
  | cons a t ih => exact List.Forall₂.cons (relI_refl a) ih

theorem forall2_relG_refl (l : List Good) : List.Forall₂ RelG l l := by
  induction l with
  | nil => exact List.Forall₂.nil
  | cons a t ih => exact List.Forall₂.cons (relG_refl a) ih

theorem relDB_refl (db : DB) : RelDB db db :=
  ⟨forall2_relI_refl db.inventory, forall2_relG_refl db.goods⟩

theorem relI_applyInvPatch (u : UpdateInventoryRequest) (iid : Int) (it : InventoryItem) :
    RelI it (if it.item_id == iid then applyInvPatch u it else it) := by
  by_cases h : (it.item_id == iid) = true
  · rw [if_pos h]
    refine ⟨rfl, ?_⟩
    intro hs
    cases hu : u.expired_date with
    | none => simpa [applyInvPatch, coalesceO, hu] using hs
    | some d => simp [applyInvPatch, coalesceO, hu]
  · rw [if_neg h]
    exact relI_refl it

theorem relG_applyGoodPatchI (u : UpdateInventoryRequest) (gid : Int) (g : Good) :
    RelG g (if g.goods_id == gid then applyGoodPatchI u g else g) := by
  by_cases h : (g.goods_id == gid) = true
  · rw [if_pos h]
    refine ⟨rfl, ?_⟩
    intro hs
    cases hu : u.description with
    | none => simpa [applyGoodPatchI, coalesceO, hu] using hs
    | some d => simp [applyGoodPatchI, coalesceO, hu]
  · rw [if_neg h]
    exact relG_refl g

theorem relG_applyGoodPatch (u : UpdateGoodRequest) (gid : Int) (g : Good) :
    RelG g (if g.goods_id == gid then applyGoodPatch u g else g) := by
  by_cases h : (g.goods_id == gid) = true
  · rw [if_pos h]
    refine ⟨rfl, ?_⟩
    intro hs
    cases hu : u.description with
    | none => simpa [applyGoodPatch, coalesceO, hu] using hs
    | some d => simp [applyGoodPatch, coalesceO, hu]
  · rw [if_neg h]
    exact relG_refl g

theorem relDB_updateInvRow {db0 db : DB} (iid : Int) (u : UpdateInventoryRequest)
    (h : RelDB db0 db) : RelDB db0 (updateInvRow db iid u) := by
  refine ⟨forall2_trans relI_trans h.1 ?_, h.2⟩
  exact forall2_of_map (relI_applyInvPatch u iid) db.inventory

theorem relDB_updateGoodRowByIdI {db0 db : DB} (gid : Int) (u : UpdateInventoryRequest)
    (h : RelDB db0 db) : RelDB db0 (updateGoodRowByIdI db gid u) := by
  refine ⟨h.1, forall2_trans relG_trans h.2 ?_⟩
  exact forall2_of_map (relG_applyGoodPatchI u gid) db.goods

theorem relDB_invUpdStep {db0 db : DB} (u : UpdateInventoryRequest)
    (item : InventoryItemWithGoods) (h : RelDB db0 db) :
    RelDB db0 (invUpdStep u db item) := by
  unfold invUpdStep
  by_cases h1 : (goodsPatchPresent u) = true
  · rw [if_pos h1]
    by_cases h2 : (u.quantity.isSome || u.expired_date.isSome) = true
    · rw [if_pos h2]
      exact relDB_updateInvRow item.item_id u (relDB_updateGoodRowByIdI item.goods_id u h)
    · rw [if_neg h2]
      exact relDB_updateGoodRowByIdI item.goods_id u h
  · rw [if_neg h1]
    by_cases h2 : (u.quantity.isSome || u.expired_date.isSome) = true
    · rw [if_pos h2]
      exact relDB_updateInvRow item.item_id u h
    · rw [if_neg h2]
      exact h

theorem invUpdLoop_relDB (u : UpdateInventoryRequest) :
    ∀ (items : List InventoryItemWithGoods) (db0 db : DB), RelDB db0 db →
    RelDB db0 ((invUpdLoop u db items).1) := by
  intro items
  induction items with
  | nil =>
    intro db0 db h
    exact h
  | cons item rest ih =>
    intro db0 db h
    have h2 : RelDB db0 (invUpdStep u db item) := relDB_invUpdStep u item h
    rw [show invUpdLoop u db (item :: rest)
        = (match getByItemId (invUpdStep u db item) item.item_id with
           | .error e => (invUpdStep u db item, .error e)
           | .ok r =>
             match invUpdLoop u (invUpdStep u db item) rest with
             | (dbf, .ok rs) => (dbf, .ok (r :: rs))
             | (dbf, .error e) => (dbf, .error e)) from rfl]
    cases hread : getByItemId (invUpdStep u db item) item.item_id with
    | error e => exact h2
    | ok r =>
      have hrec := ih db0 (invUpdStep u db item) h2
      cases hrec2 : invUpdLoop u (invUpdStep u db item) rest with
      | mk dbf res =>
        rw [hrec2] at hrec
        cases res with
        | ok rs => exact hrec
        | error e => exact hrec

theorem goodsUpdLoop_relG (u : UpdateGoodRequest) :
    ∀ (gs : List Good) (db0 db : DB),
    List.Forall₂ RelG db0.goods db.goods →
    List.Forall₂ RelG db0.goods (((goodsUpdLoop u db gs).1).goods) := by
  intro gs
  induction gs with
  | nil =>
    intro db0 db h
    exact h
  | cons g rest ih =>
    intro db0 db h
    have h1 : List.Forall₂ RelG db0.goods ((updateGoodRowById db g.goods_id u).goods) :=
      forall2_trans relG_trans h
        (forall2_of_map (relG_applyGoodPatch u g.goods_id) db.goods)
    rw [show goodsUpdLoop u db (g :: rest)
        = (match (updateGoodRowById db g.goods_id u).goods.find?
              (fun x => x.goods_id == g.goods_id) with
           | none => (updateGoodRowById db g.goods_id u, .error .rowNotFound)
           | some g1 =>
             match goodsUpdLoop u (updateGoodRowById db g.goods_id u) rest with
             | (dbf, .ok rs) => (dbf, .ok (g1 :: rs))
             | (dbf, .error e) => (dbf, .error e)) from rfl]
    cases hread : (updateGoodRowById db g.goods_id u).goods.find?
        (fun x => x.goods_id == g.goods_id) with
    | none => exact h1
    | some g1 =>
      have hrec := ih db0 (updateGoodRowById db g.goods_id u) h1
      cases hrec2 : goodsUpdLoop u (updateGoodRowById db g.goods_id u) rest with
      | mk dbf res =>
        rw [hrec2] at hrec
        cases res with
        | ok rs => exact hrec
        | error e => exact hrec

/-- Claim C9 (confirmed, for arbitrary patches — a superset of the patches
the interface accepts): no update can clear an expiry or a description.
After `InventoryTable::update` every inventory row keeps its identity and a
non-null `expired_date` stays non-null, and every goods row keeps its key and
a non-null `description` stays non-null; after `GoodsTable::update` every
goods row likewise never loses a present `description`.  (A patch can only
supply a concrete value or leave a field absent, and `COALESCE` keeps the
stored value for an absent field.) -/
theorem update_never_clears_expiry_or_description (db : DB) (ip : InventorySearchParams)
    (iu : UpdateInventoryRequest) (gp : GoodsSearchParams) (gu : UpdateGoodRequest) :
    (List.Forall₂ RelI db.inventory (((inventoryUpdate db ip iu).1).inventory)
     ∧ List.Forall₂ RelG db.goods (((inventoryUpdate db ip iu).1).goods))
    ∧ List.Forall₂ RelG db.goods (((goodsUpdate db gp gu).1).goods) := by
  constructor
  · by_cases hE : ((inventorySearch db ip).isEmpty = true)
    · have hres : inventoryUpdate db ip iu = (db, .ok []) := by
        simp only [inventoryUpdate, hE, if_true]
      rw [hres]
      exact ⟨forall2_relI_refl db.inventory, forall2_relG_refl db.goods⟩
    · have hres : inventoryUpdate db ip iu = invUpdLoop iu db (inventorySearch db ip) := by
        simp only [inventoryUpdate]
        rw [if_neg hE]
      rw [hres]
      exact invUpdLoop_relDB iu (inventorySearch db ip) db db (relDB_refl db)
  · by_cases hE : ((goodsSearch db gp).isEmpty = true)
    · have hres : goodsUpdate db gp gu = (db, .ok []) := by
        simp only [goodsUpdate, hE, if_true]
      rw [hres]
      exact forall2_relG_refl db.goods
    · have hres : goodsUpdate db gp gu = goodsUpdLoop gu db (goodsSearch db gp) := by
        simp only [goodsUpdate]
        rw [if_neg hE]
      rw [hres]
      exact goodsUpdLoop_relG gu (goodsSearch db gp) db db (forall2_relG_refl db.goods)

theorem numberConds_length : ∀ (l : List (String × BindVal)) (n : Nat),
    (numberConds n l).length = l.length := by
  intro l
  induction l with
  | nil => intro n; rfl
  | cons a t ih =>
    intro n
    obtain ⟨c, b⟩ := a
    simp [numberConds, ih (n + 1)]

theorem condCompile_eq_numberConds :
    ∀ {cs : List (Bool × String)} {segs : List (Option (String × BindVal))},
    List.Forall₂ SegMatch cs segs →
    ∀ n, condCompile n cs = numberConds n (segs.filterMap id) := by
  intro cs segs h
  induction h with
  | nil => intro n; rfl
  | cons hab hrest ih =>
    intro n
    rename_i a b l1 l2
    obtain ⟨g, c⟩ := a
    cases b with
    | none =>
      have hg : g = false := hab
      subst hg
      simp only [condCompile, Bool.false_eq_true, if_false, List.filterMap_cons]
      exact ih n
    | some pr =>
      obtain ⟨cx, bx⟩ := pr
      obtain ⟨hg, hc⟩ := hab
      subst hg
      subst hc
      simp only [condCompile, if_true, List.filterMap_cons, id_eq, numberConds]
      exact congrArg _ (ih (n + 1))
  
theorem filterMap_eq_map_snd :
    ∀ {bs : List (Option BindVal)} {segs : List (Option (String × BindVal))},
    List.Forall₂ BindValMatch bs segs →
    bs.filterMap id = (segs.filterMap id).map Prod.snd := by
  intro bs segs h
  induction h with
  | nil => rfl
  | cons hab hrest ih =>
    rename_i a b l1 l2
    cases b with
    | none =>
      have ha : a = none := hab
      subst ha
      simp only [List.filterMap_cons]
      exact ih
    | some pr =>
      have ha : a = some pr.2 := hab
      subst ha
      simp only [List.filterMap_cons, id_eq, List.map_cons]
      exact congrArg _ ih

theorem goods_not_star {p : GoodsSearchParams} (h : goodsIsGetAll p = false) :
    (p.goods_name == some "*") = false ∧ (p.material_code == some "*") = false := by
  constructor
  · cases hb : (p.goods_name == some "*")
    · rfl
    · rw [goodsIsGetAll, hb, Bool.true_or] at h
      exact absurd h (by simp)
  · cases hb : (p.material_code == some "*")
    · rfl
    · rw [goodsIsGetAll, hb, Bool.or_true] at h
      exact absurd h (by simp)

theorem goods_segmatch (p : GoodsSearchParams) (h : goodsIsGetAll p = false) :
    List.Forall₂ SegMatch (goodsCondSpec p) (goodsSegs p) := by
  simp only [goodsCondSpec, goodsSegs, List.forall₂_cons]
  refine ⟨?_, ?_, ?_, ?_, ?_, ?_, ?_, ?_, ?_, ?_, ?_, ?_, List.Forall₂.nil⟩
  · cases hx : p.goods_id <;> simp [SegMatch, hx]
  · cases hx : p.material_code <;> simp [SegMatch, hx, h]
  · cases hx : p.goods_name <;> simp [SegMatch, hx, h]
  · cases hx : p.price <;> simp [SegMatch, hx]
  · cases hx : p.volumn_l <;> simp [SegMatch, hx]
  · cases hx : p.mass_g <;> simp [SegMatch, hx]
  · cases hx : p.min_volumn_l <;> simp [SegMatch, hx]
  · cases hx : p.max_volumn_l <;> simp [SegMatch, hx]
  · cases hx : p.min_mass_g <;> simp [SegMatch, hx]
  · cases hx : p.max_mass_g <;> simp [SegMatch, hx]
  · cases hx : p.min_price <;> simp [SegMatch, hx]
  · cases hx : p.max_price <;> simp [SegMatch, hx]

theorem goods_bindmatch (p : GoodsSearchParams) (h : goodsIsGetAll p = false) :
    List.Forall₂ BindValMatch (goodsBindSpec p) (goodsSegs p) := by
  obtain ⟨hgn, hmc⟩ := goods_not_star h
  simp only [goodsBindSpec, goodsSegs, List.forall₂_cons]
  refine ⟨?_, ?_, ?_, ?_, ?_, ?_, ?_, ?_, ?_, ?_, ?_, ?_, List.Forall₂.nil⟩
  · cases hx : p.goods_id <;> simp [BindValMatch, hx]
  · cases hx : p.material_code with
    | none => simp [BindValMatch]
    | some mc =>
      have hs : (mc == "*") = false := by
        rw [hx] at hmc
        simpa using hmc
      simp [BindValMatch, hs]
  · cases hx : p.goods_name with
    | none => simp [BindValMatch]
    | some gn =>
      have hs : (gn == "*") = false := by
        rw [hx] at hgn
        simpa using hgn
      simp [BindValMatch, hs]
  · cases hx : p.price <;> simp [BindValMatch, hx]
  · cases hx : p.volumn_l <;> simp [BindValMatch, hx]
  · cases hx : p.mass_g <;> simp [BindValMatch, hx]
  · cases hx : p.min_volumn_l <;> simp [BindValMatch, hx]
  · cases hx : p.max_volumn_l <;> simp [BindValMatch, hx]
  · cases hx : p.min_mass_g <;> simp [BindValMatch, hx]
  · cases hx : p.max_mass_g <;> simp [BindValMatch, hx]
  · cases hx : p.min_price <;> simp [BindValMatch, hx]
  · cases hx : p.max_price <;> simp [BindValMatch, hx]

theorem inv_segmatch (ip : InventorySearchParams)
    (h : goodsIsGetAll ip.goods_params = false) :
    List.Forall₂ SegMatch (invCondSpec ip) (invSegs ip) := by
  simp only [invCondSpec, invSegs, List.forall₂_cons]
  refine ⟨?_, ?_, ?_, ?_, ?_, ?_, ?_, ?_, ?_, ?_, ?_, ?_, ?_, ?_, ?_, ?_, ?_, ?_, ?_,
    List.Forall₂.nil⟩
  · cases hx : ip.item_id <;> simp [SegMatch, hx]
  · cases hx : ip.quantity <;> simp [SegMatch, hx]
  · cases hx : ip.min_quantity <;> simp [SegMatch, hx]
  · cases hx : ip.max_quantity <;> simp [SegMatch, hx]
  · cases hx : ip.expired_date <;> simp [SegMatch, hx]
  · cases hx : ip.min_expired_date <;> simp [SegMatch, hx]
  · cases hx : ip.max_expired_date <;> simp [SegMatch, hx]
  · cases hx : ip.goods_params.goods_id <;> simp [SegMatch, hx]
  · cases hx : ip.goods_params.material_code <;> simp [SegMatch, hx, h]
  · cases hx : ip.goods_params.goods_name <;> simp [SegMatch, hx, h]
  · cases hx : ip.goods_params.price <;> simp [SegMatch, hx]
  · cases hx : ip.goods_params.volumn_l <;> simp [SegMatch, hx]
  · cases hx : ip.goods_params.mass_g <;> simp [SegMatch, hx]
  · cases hx : ip.goods_params.min_volumn_l <;> simp [SegMatch, hx]
  · cases hx : ip.goods_params.max_volumn_l <;> simp [SegMatch, hx]
  · cases hx : ip.goods_params.min_mass_g <;> simp [SegMatch, hx]
  · cases hx : ip.goods_params.max_mass_g <;> simp [SegMatch, hx]
  · cases hx : ip.goods_params.min_price <;> simp [SegMatch, hx]
  · cases hx : ip.goods_params.max_price <;> simp [SegMatch, hx]

theorem inv_bindmatch (ip : InventorySearchParams)
    (h : goodsIsGetAll ip.goods_params = false) :
    List.Forall₂ BindValMatch (invBindSpec ip) (invSegs ip) := by
  obtain ⟨hgn, hmc⟩ := goods_not_star h
  simp only [invBindSpec, invSegs, List.forall₂_cons]
  refine ⟨?_, ?_, ?_, ?_, ?_, ?_, ?_, ?_, ?_, ?_, ?_, ?_, ?_, ?_, ?_, ?_, ?_, ?_, ?_,
    List.Forall₂.nil⟩
  · cases hx : ip.item_id <;> simp [BindValMatch, hx]
  · cases hx : ip.quantity <;> simp [BindValMatch, hx]
  · cases hx : ip.min_quantity <;> simp [BindValMatch, hx]
  · cases hx : ip.max_quantity <;> simp [BindValMatch, hx]
  · cases hx : ip.expired_date <;> simp [BindValMatch, hx]
  · cases hx : ip.min_expired_date <;> simp [BindValMatch, hx]
  · cases hx : ip.max_expired_date <;> simp [BindValMatch, hx]
  · cases hx : ip.goods_params.goods_id <;> simp [BindValMatch, hx]
  · cases hx : ip.goods_params.material_code with
    | none => simp [BindValMatch]
    | some mc =>
      have hs : (mc == "*") = false := by
        rw [hx] at hmc
        simpa using hmc
      simp [BindValMatch, hs]
  · cases hx : ip.goods_params.goods_name with
    | none => simp [BindValMatch]
    | some gn =>
      have hs : (gn == "*") = false := by
        rw [hx] at hgn
        simpa using hgn
      simp [BindValMatch, hs]
  · cases hx : ip.goods_params.price <;> simp [BindValMatch, hx]
  · cases hx : ip.goods_params.volumn_l <;> simp [BindValMatch, hx]
  · cases hx : ip.goods_params.mass_g <;> simp [BindValMatch, hx]
  · cases hx : ip.goods_params.min_volumn_l <;> simp [BindValMatch, hx]
  · cases hx : ip.goods_params.max_volumn_l <;> simp [BindValMatch, hx]
  · cases hx : ip.goods_params.min_mass_g <;> simp [BindValMatch, hx]
  · cases hx : ip.goods_params.max_mass_g <;> simp [BindValMatch, hx]
  · cases hx : ip.goods_params.min_price <;> simp [BindValMatch, hx]
  · cases hx : ip.goods_params.max_price <;> simp [BindValMatch, hx]

/-- Claim C3 (amended): for every non-get-all filter, the compiled condition
list and the bound value list are the two projections of the same
declaration-ordered present-field list: the i-th condition is the i-th
present field's condition text with placeholder `$(i+1)` and the i-th bind
value is that same field's value — so the lists have equal length and
correspond index-for-index.  The fixed order is the struct declaration
order (Inventory-specific fields before the embedded Goods fields); for the
Inventory-specific fields the expiry *equality* condition sits between the
quantity and expiry range pairs, not before all range pairs. -/
theorem filter_compiler_alignment (p : GoodsSearchParams) (ip : InventorySearchParams) :
    (goodsIsGetAll p = false →
      goodsConditions p = numberConds 0 ((goodsSegs p).filterMap id)
      ∧ goodsBinds p = ((goodsSegs p).filterMap id).map Prod.snd
      ∧ (goodsConditions p).length = (goodsBinds p).length)
    ∧ (invIsGetAll ip = false →
      invConditions ip = numberConds 0 ((invSegs ip).filterMap id)
      ∧ invBinds ip = ((invSegs ip).filterMap id).map Prod.snd
      ∧ (invConditions ip).length = (invBinds ip).length) := by
  constructor
  · intro h
    have h1 : goodsConditions p = numberConds 0 ((goodsSegs p).filterMap id) :=
      condCompile_eq_numberConds (goods_segmatch p h) 0
    have h2 : goodsBinds p = ((goodsSegs p).filterMap id).map Prod.snd :=
      filterMap_eq_map_snd (goods_bindmatch p h)
    refine ⟨h1, h2, ?_⟩
    rw [h1, h2, numberConds_length, List.length_map]
  · intro h
    have hg : goodsIsGetAll ip.goods_params = false := h
    have h1 : invConditions ip = numberConds 0 ((invSegs ip).filterMap id) :=
      condCompile_eq_numberConds (inv_segmatch ip hg) 0
    have h2 : invBinds ip = ((invSegs ip).filterMap id).map Prod.snd :=
      filterMap_eq_map_snd (inv_bindmatch ip hg)
    refine ⟨h1, h2, ?_⟩
    rw [h1, h2, numberConds_length, List.length_map]

/-- Counterexample to claim C3 as stated: with only `min_quantity` (a range
field) and `expired_date` (an equality field) present, the compiled
conditions put the quantity *range* condition first (`$1`) and the expiry
*equality* condition second (`$2`) — the claimed "equality/identity fields
first, then range pairs" order does not hold for the Inventory-specific
fields; the compiler follows plain declaration order instead. -/
theorem filter_compiler_field_order_counterexample :
    invConditions cx3ip = [" AND i.quantity >= $1", " AND i.expired_date = $2"] := by
  rfl

theorem filter_compiler_alignment_witness :
    (goodsConditions w3p).length = (goodsBinds w3p).length
    ∧ (invConditions w3ip).length = (invBinds w3ip).length := by
  have h := filter_compiler_alignment w3p w3ip
  exact ⟨(h.1 rfl).2.2, (h.2 rfl).2.2⟩
